import Mathlib

/-!
Verification development for the wall framing generator of the CAD repository
(packages/geometry-core: framing/generator.rs, framing/regeneration.rs,
domain/framing.rs, domain/opening.rs, plus the Wall and Point types of
domain/wall.rs and domain/spatial.rs).

Modelling conventions, fixed once for the whole file:

* Rust f64 values are modelled as exact rationals.  The source performs only
  field arithmetic on f64 except for one square root (Point2.distance_to) and
  one arctangent (atan2, used only to fill the informational rotation field of
  horizontal members).  The square root is modelled by Rat.sqrt, which agrees
  with the real square root on perfect squares - every concrete input used in
  this file has an axis aligned wall, where the model is exact.  Special f64
  values (NaN, infinities, signed zero) are outside the model.
* The rotation field stores the pair of direction components that the source
  feeds to atan2 (atan2 is injective on the values the generator produces, so
  nothing is lost); vertical members store the pair (1, 0), the direction
  whose angle is the literal 0.0 that the source stores.  No claim reads the
  rotation field.
* Rust while loops that advance a rational cursor are modelled by structurally
  recursive functions over an explicit fuel argument, returning none when the
  fuel runs out.  The fuel passed by the callers is sufficient exactly when
  the source loop terminates (stud spacing bigger than 0); when the source
  loop runs forever the model returns none.  The top level generator therefore
  returns an Option: none models the diverging executions, some r models the
  executions returning r.
* Freshly generated UUIDs (FramingMemberId.new, FramingLayoutId.new) carry no
  information that any code under verification ever reads, so the member and
  layout id types are modelled as one element types, and the error message
  strings (built with format!) are dropped from the error constructors; the
  entity ids the errors carry are kept.  WallId and OpeningId are modelled as
  natural number wrappers with decidable equality.
* The u8 field jack_stud_count and the u32 field stud_count are modelled by
  natural numbers (no generated value ever approaches the wrap around range).
-/

/-- Wall identifier (domain/ids.rs), a strongly typed UUID wrapper; modelled
as a natural number wrapper. -/
structure WallId where
  val : Nat
deriving DecidableEq, Repr

/-- Opening identifier (domain/ids.rs), modelled as a natural number
wrapper. -/
structure OpeningId where
  val : Nat
deriving DecidableEq, Repr

/-- Framing member identifier (domain/ids.rs).  The source fills it with a
fresh random UUID that nothing under verification reads, so it is modelled as
a one element type. -/
structure FramingMemberId where
deriving DecidableEq, Repr

/-- Framing layout identifier (domain/ids.rs), likewise a fresh UUID that
nothing reads; modelled as a one element type. -/
structure FramingLayoutId where
deriving DecidableEq, Repr

/-- The fresh UUID constructor of FramingMemberId. -/
def FramingMemberId.new : FramingMemberId := ⟨⟩

/-- The fresh UUID constructor of FramingLayoutId. -/
def FramingLayoutId.new : FramingLayoutId := ⟨⟩

/-- A 2D point (domain/spatial.rs). -/
structure Point2 where
  x : ℚ
  y : ℚ
deriving DecidableEq, Repr

/-- Point2.new (domain/spatial.rs). -/
def Point2.new (x y : ℚ) : Point2 := ⟨x, y⟩

/-- Point2.distance_to (domain/spatial.rs): sqrt of dx*dx + dy*dy.  The f64
square root is modelled by Rat.sqrt (exact on perfect squares). -/
def Point2.distance_to (p other : Point2) : ℚ :=
  Rat.sqrt ((p.x - other.x) * (p.x - other.x) + (p.y - other.y) * (p.y - other.y))

/-- A 3D point (domain/spatial.rs). -/
structure Point3 where
  x : ℚ
  y : ℚ
  z : ℚ
deriving DecidableEq, Repr

/-- Point3.new (domain/spatial.rs). -/
def Point3.new (x y z : ℚ) : Point3 := ⟨x, y, z⟩

/-- Standard lumber sizes (domain/framing.rs). -/
inductive LumberSize where
  | TwoByFour
  | TwoBySix
  | TwoByEight
  | TwoByTen
  | TwoByTwelve
  | FourByFour
  | FourBySix
  | Custom (width : ℚ) (depth : ℚ)
deriving DecidableEq, Repr

/-- LumberSize::actual_dimensions (domain/framing.rs): the actual
(width, depth) in inches. -/
def LumberSize.actual_dimensions : LumberSize → ℚ × ℚ
  | .TwoByFour => (1.5, 3.5)
  | .TwoBySix => (1.5, 5.5)
  | .TwoByEight => (1.5, 7.25)
  | .TwoByTen => (1.5, 9.25)
  | .TwoByTwelve => (1.5, 11.25)
  | .FourByFour => (3.5, 3.5)
  | .FourBySix => (3.5, 5.5)
  | .Custom width depth => (width, depth)

/-- LumberSize::board_feet_per_foot (domain/framing.rs): width * depth / 12. -/
def LumberSize.board_feet_per_foot (s : LumberSize) : ℚ :=
  let (width, depth) := s.actual_dimensions
  width * depth / 12

/-- Type of framing member (domain/framing.rs). -/
inductive FramingMemberType where
  | Stud
  | KingStud
  | JackStud
  | Header
  | BottomPlate
  | TopPlate
  | DoubleTopPlate
  | CrippleStud
  | Sill
  | FireBlocking
deriving DecidableEq, Repr

/-- Material type for framing members (domain/framing.rs). -/
inductive FramingMaterial where
  | SPF
  | DF
  | SYP
  | LVL
  | PSL
  | Steel
deriving DecidableEq, Repr

/-- Header type for openings (domain/framing.rs). -/
inductive HeaderType where
  | DoubleLumber
  | TripleLumber
  | LVL
  | PSL
  | SteelLintel
  | Glulam
deriving DecidableEq, Repr

/-- HeaderType::for_span (domain/framing.rs lines 211-231). -/
def HeaderType.for_span (span : ℚ) (is_load_bearing : Bool) : HeaderType :=
  if !is_load_bearing then
    if span ≤ 48 then .DoubleLumber
    else .TripleLumber
  else
    if span ≤ 36 then .DoubleLumber
    else if span ≤ 60 then .TripleLumber
    else if span ≤ 96 then .LVL
    else .PSL

/-- An individual framing member (domain/framing.rs).  The rotation field
stores the direction pair fed to atan2 rather than the angle itself (see the
header comment). -/
structure FramingMember where
  id : FramingMemberId
  member_type : FramingMemberType
  lumber_size : LumberSize
  material : FramingMaterial
  position : Point3
  length : ℚ
  rotation : ℚ × ℚ
  wall_id : WallId
  opening_id : Option OpeningId
deriving DecidableEq, Repr

/-- FramingMember::new (domain/framing.rs lines 260-280). -/
def FramingMember.new (member_type : FramingMemberType) (lumber_size : LumberSize)
    (material : FramingMaterial) (position : Point3) (length : ℚ)
    (rotation : ℚ × ℚ) (wall_id : WallId) : FramingMember :=
  { id := FramingMemberId.new
    member_type := member_type
    lumber_size := lumber_size
    material := material
    position := position
    length := length
    rotation := rotation
    wall_id := wall_id
    opening_id := none }

/-- FramingMember::with_opening (domain/framing.rs). -/
def FramingMember.with_opening (m : FramingMember) (opening_id : OpeningId) :
    FramingMember :=
  { m with opening_id := some opening_id }

/-- FramingMember::board_feet (domain/framing.rs line 289-291). -/
def FramingMember.board_feet (m : FramingMember) : ℚ :=
  m.lumber_size.board_feet_per_foot * (m.length / 12)

/-- Rough opening configuration (domain/framing.rs). -/
structure RoughOpening where
  opening_id : OpeningId
  width : ℚ
  height : ℚ
  position_along_wall : ℚ
  jack_stud_count : Nat
  header_depth : ℚ
  header_type : HeaderType
  requires_sill : Bool
deriving DecidableEq, Repr

/-- RoughOpening::for_window (domain/framing.rs lines 396-417). -/
def RoughOpening.for_window (opening_id : OpeningId) (width height
    position_along_wall : ℚ) (is_load_bearing : Bool) : RoughOpening :=
  let ro_width := width + 1.0
  let ro_height := height + 0.5
  { opening_id := opening_id
    width := ro_width
    height := ro_height
    position_along_wall := position_along_wall
    jack_stud_count := if ro_width > 48 then 2 else 1
    header_depth := 7.25
    header_type := HeaderType.for_span ro_width is_load_bearing
    requires_sill := true }

/-- RoughOpening::for_door (domain/framing.rs lines 420-441). -/
def RoughOpening.for_door (opening_id : OpeningId) (width height
    position_along_wall : ℚ) (is_load_bearing : Bool) : RoughOpening :=
  let ro_width := width + 2.0
  let ro_height := height + 0.5
  { opening_id := opening_id
    width := ro_width
    height := ro_height
    position_along_wall := position_along_wall
    jack_stud_count := if ro_width > 48 then 2 else 1
    header_depth := 7.25
    header_type := HeaderType.for_span ro_width is_load_bearing
    requires_sill := false }

/-- Wall framing configuration (domain/framing.rs). -/
structure WallFramingConfig where
  stud_spacing : ℚ
  lumber_size : LumberSize
  double_top_plate : Bool
  is_load_bearing : Bool
  fire_blocking_required : Bool
deriving DecidableEq, Repr

/-- WallFramingConfig::default (domain/framing.rs lines 611-622): 16 inch on
center, 2x6, double top plate, load bearing, no fire blocking. -/
def WallFramingConfig.default : WallFramingConfig :=
  { stud_spacing := 16
    lumber_size := .TwoBySix
    double_top_plate := true
    is_load_bearing := true
    fire_blocking_required := false }

/-- Complete framing layout for a wall (domain/framing.rs). -/
structure FramingLayout where
  id : FramingLayoutId
  wall_id : WallId
  members : List FramingMember
  stud_spacing : ℚ
  double_top_plate : Bool
  lumber_size : LumberSize
  total_board_feet : ℚ
  stud_count : Nat
deriving DecidableEq, Repr

/-- FramingLayout::new (domain/framing.rs lines 477-488). -/
def FramingLayout.new (wall_id : WallId) (stud_spacing : ℚ)
    (lumber_size : LumberSize) : FramingLayout :=
  { id := FramingLayoutId.new
    wall_id := wall_id
    members := []
    stud_spacing := stud_spacing
    double_top_plate := true
    lumber_size := lumber_size
    total_board_feet := 0
    stud_count := 0 }

/-- FramingLayout::add_member (domain/framing.rs lines 491-497): bumps the
incremental totals and pushes the member. -/
def FramingLayout.add_member (l : FramingLayout) (member : FramingMember) :
    FramingLayout :=
  { l with
    total_board_feet := l.total_board_feet + member.board_feet
    stud_count :=
      if member.member_type = .Stud then l.stud_count + 1 else l.stud_count
    members := l.members ++ [member] }

/-- FramingLayout::recalculate_totals (domain/framing.rs lines 522-537):
recomputes both totals from the member list. -/
def FramingLayout.recalculate_totals (l : FramingLayout) : FramingLayout :=
  { l with
    total_board_feet := (l.members.map FramingMember.board_feet).sum
    stud_count :=
      (l.members.filter fun m =>
        m.member_type = .Stud ∨ m.member_type = .KingStud ∨
        m.member_type = .JackStud ∨ m.member_type = .CrippleStud).length }

/-- Type of opening (domain/opening.rs). -/
inductive OpeningType where
  | Window
  | Door
  | Other (name : String)
deriving DecidableEq, Repr

/-- An opening in a wall (domain/opening.rs).  The window and door property
records (thermal data, fire rating) are never read by the framing code under
verification and are omitted. -/
structure Opening where
  id : OpeningId
  wall_id : WallId
  opening_type : OpeningType
  position_along_wall : ℚ
  width : ℚ
  height : ℚ
  sill_height : ℚ
deriving DecidableEq, Repr

/-- A wall (domain/wall.rs of the geometry-server package, which carries the
same Wall value type; the geometry-core copy that the generator imports
additionally exposes the framing_config field that generator.rs reads, per
spec section 6).  The assembly and level id fields are never read by the
framing code and are omitted.  The field named end in the source is spelled
end_ because end is a reserved word. -/
structure Wall where
  id : WallId
  start : Point2
  end_ : Point2
  height : ℚ
  base_offset : ℚ
  framing_config : WallFramingConfig
deriving DecidableEq, Repr

/-- Wall::length (domain/wall.rs lines 142-144): distance between the
endpoints. -/
def Wall.length (w : Wall) : ℚ :=
  w.start.distance_to w.end_

/-- Wall::direction (domain/wall.rs lines 147-156): normalized direction, or
(0, 0) for degenerate walls. -/
def Wall.direction (w : Wall) : ℚ × ℚ :=
  let dx := w.end_.x - w.start.x
  let dy := w.end_.y - w.start.y
  let len := w.length
  if len > 1 / 10000000000 then (dx / len, dy / len) else (0, 0)

/-- A wall assembly (domain/wall.rs).  The generator accepts it for API
stability and never consults it (the parameter is _assembly), so it is
modelled as a one element type. -/
structure WallAssembly where
deriving DecidableEq, Repr

/-- Error type for framing generation (framing/generator.rs lines 12-24).
The format! message strings are dropped (nothing under verification reads
them); the entity ids are kept. -/
inductive FramingError where
  | InvalidWallDimensions (wall_id : WallId)
  | OpeningTooLarge (opening_id : OpeningId)
  | OpeningOutOfBounds (opening_id : OpeningId)
  | OverlappingOpenings (opening_ids : List OpeningId)
  | InvalidConfig
deriving DecidableEq, Repr

/-- position_in_opening (framing/generator.rs lines 632-650): whether a stud
position falls inside the exclusion zone of any rough opening (opening bounds
expanded by twice the stud width on each side). -/
def position_in_opening (position : ℚ) (stud_width : ℚ)
    (rough_openings : List RoughOpening) : Bool :=
  rough_openings.any fun ro =>
    let ro_left := ro.position_along_wall - ro.width / 2
    let ro_right := ro.position_along_wall + ro.width / 2
    let exclusion_left := ro_left - stud_width * 2
    let exclusion_right := ro_right + stud_width * 2
    decide (position ≥ exclusion_left ∧ position ≤ exclusion_right)

/-- segment_entirely_in_opening (framing/generator.rs lines 653-667). -/
def segment_entirely_in_opening (start_ end_ : ℚ)
    (rough_openings : List RoughOpening) : Bool :=
  rough_openings.any fun ro =>
    let ro_left := ro.position_along_wall - ro.width / 2
    let ro_right := ro.position_along_wall + ro.width / 2
    decide (start_ ≥ ro_left ∧ end_ ≤ ro_right)

/-- size_header (framing/generator.rs lines 671-673). -/
def size_header (span : ℚ) (is_load_bearing : Bool) : HeaderType :=
  HeaderType.for_span span is_load_bearing

/-- size_header_lumber (framing/generator.rs lines 676-703). -/
def size_header_lumber (span : ℚ) (is_load_bearing : Bool) : LumberSize :=
  if !is_load_bearing then
    if span ≤ 48 then .TwoBySix
    else .TwoByEight
  else
    if span ≤ 48 then .TwoBySix
    else if span ≤ 72 then .TwoByEight
    else if span ≤ 96 then .TwoByTen
    else if span ≤ 120 then .TwoByTwelve
    else .Custom 1.75 11.875

/-- header_material (framing/generator.rs lines 706-714). -/
def header_material : HeaderType → FramingMaterial
  | .DoubleLumber => .SPF
  | .TripleLumber => .SPF
  | .LVL => .LVL
  | .PSL => .PSL
  | .SteelLintel => .Steel
  | .Glulam => .DF

/-- generate_plates (framing/generator.rs lines 135-181): bottom plate, top
plate, and the optional double top plate. -/
def generate_plates (wall : Wall) (config : WallFramingConfig)
    (rotation : ℚ × ℚ) : List FramingMember :=
  let wall_length := wall.length
  let lumber_depth := config.lumber_size.actual_dimensions.2
  let bottom_plate := FramingMember.new .BottomPlate config.lumber_size .SPF
    (Point3.new wall.start.x wall.start.y wall.base_offset) wall_length rotation
    wall.id
  let top_plate_z := wall.base_offset + wall.height - lumber_depth
  let top_plate := FramingMember.new .TopPlate config.lumber_size .SPF
    (Point3.new wall.start.x wall.start.y top_plate_z) wall_length rotation
    wall.id
  let base := [bottom_plate, top_plate]
  if config.double_top_plate then
    let double_top_z := top_plate_z - lumber_depth
    let double_top := FramingMember.new .DoubleTopPlate config.lumber_size .SPF
      (Point3.new wall.start.x wall.start.y double_top_z) wall_length rotation
      wall.id
    base ++ [double_top]
  else base

/-- The member constructor applied by the body of the stud while loop
(framing/generator.rs lines 215-223): a vertical stud at scalar position p
along the wall. -/
def mk_stud (wall : Wall) (config : WallFramingConfig)
    (stud_z stud_height p : ℚ) : FramingMember :=
  FramingMember.new .Stud config.lumber_size .SPF
    (Point3.new (wall.start.x + wall.direction.1 * p)
      (wall.start.y + wall.direction.2 * p) stud_z)
    stud_height (1, 0) wall.id

/-- The while loop of generate_studs (framing/generator.rs lines 206-228),
modelled with fuel over the scalar positions: starting at the given position
it emits every on center position not inside an exclusion zone, advancing by
the stud spacing while the position is at most end_position.  none models
running out of fuel, which with the fuel supplied by stud_positions happens
exactly when the source loop never exits (stud spacing at most 0). -/
def stud_grid_loop (spacing lumber_width end_position : ℚ)
    (rough_openings : List RoughOpening) : Nat → ℚ → Option (List ℚ)
  | 0, position => if position ≤ end_position then none else some []
  | fuel + 1, position =>
    if position ≤ end_position then
      let rest := stud_grid_loop spacing lumber_width end_position
        rough_openings fuel (position + spacing)
      if position_in_opening position lumber_width rough_openings then rest
      else (position :: ·) <$> rest
    else some []

/-- The scalar positions of the studs that generate_studs emits
(framing/generator.rs lines 201-251): the on center grid positions, then the
trailing end stud position wall_length - lumber_width when the end stud
check passes. -/
def stud_positions (wall : Wall) (config : WallFramingConfig)
    (rough_openings : List RoughOpening) : Option (List ℚ) := do
  let wall_length := wall.length
  let lumber_width := config.lumber_size.actual_dimensions.1
  let end_position := wall_length - lumber_width
  let fuel := (⌊end_position / config.stud_spacing⌋).toNat + 1
  let grid ← stud_grid_loop config.stud_spacing lumber_width end_position
    rough_openings fuel 0
  let end_pos := wall_length - lumber_width / 2
  if !position_in_opening end_pos lumber_width rough_openings then
    let last_stud_position :=
      (⌊(wall_length - lumber_width) / config.stud_spacing⌋ : ℚ) *
        config.stud_spacing
    if |wall_length - lumber_width - last_stud_position| > lumber_width then
      pure (grid ++ [wall_length - lumber_width])
    else pure grid
  else pure grid

/-- generate_studs (framing/generator.rs lines 184-253): one stud member,
built by mk_stud, for every position that stud_positions emits. -/
def generate_studs (wall : Wall) (config : WallFramingConfig)
    (rough_openings : List RoughOpening) : Option (List FramingMember) :=
  let lumber_depth := config.lumber_size.actual_dimensions.2
  let plate_count : ℚ := if config.double_top_plate then 3 else 2
  let stud_height := wall.height - plate_count * lumber_depth
  let stud_z := wall.base_offset + lumber_depth
  (stud_positions wall config rough_openings).map
    (List.map (mk_stud wall config stud_z stud_height))

/-- The member constructor applied by the body of the cripple while loop
(framing/generator.rs lines 436-450). -/
def mk_cripple (wall : Wall) (config : WallFramingConfig) (ro : RoughOpening)
    (z_position height p : ℚ) : FramingMember :=
  (FramingMember.new .CrippleStud config.lumber_size .SPF
    (Point3.new (wall.start.x + wall.direction.1 * p)
      (wall.start.y + wall.direction.2 * p) z_position)
    height (1, 0) wall.id).with_opening ro.opening_id

/-- The while loop of generate_cripples (framing/generator.rs lines 434-453)
over the scalar positions, modelled with fuel like stud_grid_loop. -/
def cripple_pos_loop (spacing bound : ℚ) : Nat → ℚ → Option (List ℚ)
  | 0, pos => if pos < bound then none else some []
  | fuel + 1, pos =>
    if pos < bound then
      (pos :: ·) <$> cripple_pos_loop spacing bound fuel (pos + spacing)
    else some []

/-- The scalar positions of the cripple studs of one opening
(framing/generator.rs lines 430-453): the stud spacing grid strictly between
ro_left + spacing and ro_right - lumber_width. -/
def cripple_positions (spacing lumber_width : ℚ) (ro : RoughOpening) :
    Option (List ℚ) :=
  let ro_left := ro.position_along_wall - ro.width / 2
  let ro_right := ro.position_along_wall + ro.width / 2
  let bound := ro_right - lumber_width
  let start := ro_left + spacing
  let fuel := (⌊(bound - start) / spacing⌋).toNat + 1
  cripple_pos_loop spacing bound fuel start

/-- generate_cripples (framing/generator.rs lines 418-456): one cripple
member, built by mk_cripple, for every position that cripple_positions
emits. -/
def generate_cripples (wall : Wall) (config : WallFramingConfig)
    (ro : RoughOpening) (z_position height : ℚ) (_below_sill : Bool) :
    Option (List FramingMember) :=
  let lumber_width := config.lumber_size.actual_dimensions.1
  (cripple_positions config.stud_spacing lumber_width ro).map
    (List.map (mk_cripple wall config ro z_position height))

/-- generate_opening_framing (framing/generator.rs lines 256-415): king
studs, jack studs, header, sill and cripples for one rough opening. -/
def generate_opening_framing (wall : Wall) (ro : RoughOpening)
    (config : WallFramingConfig) : Option (List FramingMember) :=
  let dir := wall.direction
  let wall_rotation := dir
  let lumber_width := config.lumber_size.actual_dimensions.1
  let lumber_depth := config.lumber_size.actual_dimensions.2
  let ro_left := ro.position_along_wall - ro.width / 2
  let ro_right := ro.position_along_wall + ro.width / 2
  let king_left_pos := ro_left - lumber_width
  let king_right_pos := ro_right
  let plate_count : ℚ := if config.double_top_plate then 3 else 2
  let full_stud_height := wall.height - plate_count * lumber_depth
  let stud_z := wall.base_offset + lumber_depth
  let king_left := (FramingMember.new .KingStud config.lumber_size .SPF
    (Point3.new (wall.start.x + dir.1 * king_left_pos)
      (wall.start.y + dir.2 * king_left_pos) stud_z)
    full_stud_height (1, 0) wall.id).with_opening ro.opening_id
  let king_right := (FramingMember.new .KingStud config.lumber_size .SPF
    (Point3.new (wall.start.x + dir.1 * king_right_pos)
      (wall.start.y + dir.2 * king_right_pos) stud_z)
    full_stud_height (1, 0) wall.id).with_opening ro.opening_id
  let header_bottom_z := stud_z + full_stud_height - ro.header_depth
  let jack_height := header_bottom_z - stud_z
  let jacks := (List.range ro.jack_stud_count).flatMap fun i =>
    let offset := ((i : ℚ) + 1) * lumber_width
    let jack_left := (FramingMember.new .JackStud config.lumber_size .SPF
      (Point3.new (wall.start.x + dir.1 * (king_left_pos + offset))
        (wall.start.y + dir.2 * (king_left_pos + offset)) stud_z)
      jack_height (1, 0) wall.id).with_opening ro.opening_id
    let jack_right := (FramingMember.new .JackStud config.lumber_size .SPF
      (Point3.new (wall.start.x + dir.1 * (king_right_pos - offset))
        (wall.start.y + dir.2 * (king_right_pos - offset)) stud_z)
      jack_height (1, 0) wall.id).with_opening ro.opening_id
    [jack_left, jack_right]
  let header_lumber_size := size_header_lumber ro.width config.is_load_bearing
  let header_length := ro.width + (ro.jack_stud_count : ℚ) * lumber_width * 2
  let header_x := wall.start.x + dir.1 * (king_left_pos + lumber_width)
  let header_y := wall.start.y + dir.2 * (king_left_pos + lumber_width)
  let header := (FramingMember.new .Header header_lumber_size
    (header_material ro.header_type)
    (Point3.new header_x header_y header_bottom_z) header_length wall_rotation
    wall.id).with_opening ro.opening_id
  let sill_part : Option (List FramingMember) :=
    if ro.requires_sill then
      let sill_z := stud_z + jack_height - ro.height
      let sill := (FramingMember.new .Sill config.lumber_size .SPF
        (Point3.new header_x header_y sill_z) header_length wall_rotation
        wall.id).with_opening ro.opening_id
      let cripple_height := sill_z - stud_z
      if cripple_height > lumber_depth then
        (generate_cripples wall config ro stud_z cripple_height true).map
          fun cripples_below => sill :: cripples_below
      else some [sill]
    else some []
  let above_part : Option (List FramingMember) :=
    let cripple_above_z := header_bottom_z + ro.header_depth
    let cripple_above_height := stud_z + full_stud_height - cripple_above_z
    if cripple_above_height > lumber_depth then
      generate_cripples wall config ro cripple_above_z cripple_above_height
        false
    else some []
  Option.bind sill_part fun sill_members =>
  Option.bind above_part fun cripples_above =>
  some ([king_left, king_right] ++ jacks ++ [header] ++ sill_members ++
    cripples_above)

/-- The member constructor applied by the inner fire blocking loop
(framing/generator.rs lines 498-510). -/
def mk_fire_block (wall : Wall) (config : WallFramingConfig)
    (rotation : ℚ × ℚ) (blocking_z p : ℚ) : FramingMember :=
  FramingMember.new .FireBlocking config.lumber_size .SPF
    (Point3.new (wall.start.x + wall.direction.1 * p)
      (wall.start.y + wall.direction.2 * p) blocking_z)
    config.stud_spacing rotation wall.id

/-- The inner while loop of generate_fire_blocking (framing/generator.rs
lines 488-515) over the scalar block positions: walks one segment, jumping
to the next stud grid position each iteration, keeping a position when the
jump target stays inside the segment and the block is clear of every
opening exclusion zone. -/
def fire_block_inner (spacing : ℚ) (rough_openings : List RoughOpening)
    (segment_end : ℚ) : Nat → ℚ → Option (List ℚ)
  | 0, block_pos => if block_pos < segment_end then none else some []
  | fuel + 1, block_pos =>
    if block_pos < segment_end then
      let next_stud := ((⌊block_pos / spacing⌋ : ℚ) + 1) * spacing
      let rest := fire_block_inner spacing rough_openings segment_end fuel
        next_stud
      if next_stud < segment_end then
        if !position_in_opening block_pos spacing rough_openings then
          (block_pos :: ·) <$> rest
        else rest
      else rest
    else some []

/-- The outer while loop of generate_fire_blocking (framing/generator.rs
lines 479-519) over the scalar block positions, stepping through the wall in
120 inch segments and skipping segments wholly inside an opening. -/
def fire_block_outer (spacing : ℚ) (rough_openings : List RoughOpening)
    (wall_length : ℚ) : Nat → ℚ → Option (List ℚ)
  | 0, pos => if pos < wall_length then none else some []
  | fuel + 1, pos =>
    if pos < wall_length then do
      let segment_start := pos
      let segment_end := min (pos + 120) wall_length
      let seg ←
        if !segment_entirely_in_opening segment_start segment_end
            rough_openings then
          let inner_fuel :=
            (⌊(segment_end - segment_start) / spacing⌋).toNat + 2
          fire_block_inner spacing rough_openings segment_end inner_fuel
            segment_start
        else pure []
      let rest ← fire_block_outer spacing rough_openings wall_length fuel
        (pos + 120)
      pure (seg ++ rest)
    else some []

/-- generate_fire_blocking (framing/generator.rs lines 459-522): one
blocking member, built by mk_fire_block, for every position the segment
loops emit. -/
def generate_fire_blocking (wall : Wall) (config : WallFramingConfig)
    (rough_openings : List RoughOpening) (rotation : ℚ × ℚ) :
    Option (List FramingMember) :=
  let wall_length := wall.length
  let lumber_depth := config.lumber_size.actual_dimensions.2
  let plate_count : ℚ := if config.double_top_plate then 3 else 2
  let stud_height := wall.height - plate_count * lumber_depth
  let blocking_z := wall.base_offset + lumber_depth + stud_height / 2
  let fuel := (⌊wall_length / 120⌋).toNat + 1
  (fire_block_outer config.stud_spacing rough_openings wall_length fuel
    0).map (List.map (mk_fire_block wall config rotation blocking_z))

/-- compute_rough_opening (framing/generator.rs lines 525-588). -/
def compute_rough_opening (opening : Opening) (wall : Wall)
    (config : WallFramingConfig) : Except FramingError RoughOpening :=
  let wall_length := wall.length
  let position_along_wall := opening.position_along_wall * wall_length
  let ro :=
    match opening.opening_type with
    | .Window => RoughOpening.for_window opening.id opening.width
        opening.height position_along_wall config.is_load_bearing
    | .Door => RoughOpening.for_door opening.id opening.width opening.height
        position_along_wall config.is_load_bearing
    | .Other _ => RoughOpening.for_door opening.id opening.width
        opening.height position_along_wall config.is_load_bearing
  let ro_left := ro.position_along_wall - ro.width / 2
  let ro_right := ro.position_along_wall + ro.width / 2
  if ro_left < 0 ∨ ro_right > wall_length then
    .error (.OpeningOutOfBounds opening.id)
  else if ro.height > wall.height then
    .error (.OpeningTooLarge opening.id)
  else
    .ok ro

/-- compute_all_rough_openings (framing/generator.rs lines 591-601): filters
the openings belonging to this wall and computes each rough opening, aborting
at the first error. -/
def compute_all_rough_openings (wall : Wall) (openings : List Opening)
    (config : WallFramingConfig) : Except FramingError (List RoughOpening) :=
  (openings.filter fun o => o.wall_id = wall.id).mapM
    fun o => compute_rough_opening o wall config

/-- The inner loop of validate_openings_no_overlap (framing/generator.rs
lines 606-627): checks one rough opening against each later one. -/
def validate_pair_against (ro1 : RoughOpening) :
    List RoughOpening → Except FramingError Unit
  | [] => .ok ()
  | ro2 :: rest =>
    let ro1_left := ro1.position_along_wall - ro1.width / 2
    let ro1_right := ro1.position_along_wall + ro1.width / 2
    let ro2_left := ro2.position_along_wall - ro2.width / 2
    let ro2_right := ro2.position_along_wall + ro2.width / 2
    let min_gap : ℚ := 3.5
    if ro1_right + min_gap > ro2_left ∧ ro2_right + min_gap > ro1_left then
      .error (.OverlappingOpenings [ro1.opening_id, ro2.opening_id])
    else validate_pair_against ro1 rest

/-- validate_openings_no_overlap (framing/generator.rs lines 604-629): the
pairwise overlap check over all index pairs i < j, in loop order. -/
def validate_openings_no_overlap :
    List RoughOpening → Except FramingError Unit
  | [] => .ok ()
  | ro1 :: rest => do
    validate_pair_against ro1 rest
    validate_openings_no_overlap rest

/-- generate_wall_framing (framing/generator.rs lines 63-132), the sole entry
point.  The result is an Option: none models the executions on which the
source never returns (a while loop that cannot exit, possible only when the
configured stud spacing is not positive), some (.error e) the validation
failures and some (.ok layout) the successful runs. -/
def generate_wall_framing (wall : Wall) (_assembly : WallAssembly)
    (openings : List Opening) : Option (Except FramingError FramingLayout) :=
  let config := wall.framing_config
  let wall_length := wall.length
  let wall_height := wall.height
  if wall_length < 1 then some (.error (.InvalidWallDimensions wall.id))
  else if wall_height < 12 then some (.error (.InvalidWallDimensions wall.id))
  else
    match compute_all_rough_openings wall openings config with
    | .error e => some (.error e)
    | .ok rough_openings =>
      match validate_openings_no_overlap rough_openings with
      | .error e => some (.error e)
      | .ok _ => do
        let layout := { FramingLayout.new wall.id config.stud_spacing
            config.lumber_size with
          double_top_plate := config.double_top_plate }
        let wall_rotation := wall.direction
        let plates := generate_plates wall config wall_rotation
        let layout := plates.foldl FramingLayout.add_member layout
        let studs ← generate_studs wall config rough_openings
        let layout := studs.foldl FramingLayout.add_member layout
        let opening_members ← rough_openings.mapM fun ro =>
          generate_opening_framing wall ro config
        let layout := opening_members.flatten.foldl FramingLayout.add_member
          layout
        let layout ←
          if config.fire_blocking_required then do
            let blocking ← generate_fire_blocking wall config rough_openings
              wall_rotation
            pure (blocking.foldl FramingLayout.add_member layout)
          else pure layout
        pure (.ok layout.recalculate_totals)

/-- Dirty state tracker for framing regeneration (framing/regeneration.rs
lines 12-17).  The HashSet of dirty wall ids is modelled as its
characteristic function and the HashMap from opening id to wall id as a
function into Option WallId; the count and enumeration helpers (dirty_count,
get_dirty_walls, get_registered_openings, get_openings_for_wall), which no
claim mentions, are not embedded. -/
structure RegenerationManager where
  dirty_walls : WallId → Bool
  opening_wall_map : OpeningId → Option WallId

/-- RegenerationManager::new (framing/regeneration.rs lines 21-26). -/
def RegenerationManager.new : RegenerationManager :=
  { dirty_walls := fun _ => false
    opening_wall_map := fun _ => none }

/-- RegenerationManager::invalidate_wall (framing/regeneration.rs lines
34-36). -/
def RegenerationManager.invalidate_wall (m : RegenerationManager)
    (wall_id : WallId) : RegenerationManager :=
  { m with dirty_walls := fun x => if x = wall_id then true else m.dirty_walls x }

/-- RegenerationManager::invalidate_opening (framing/regeneration.rs lines
45-48). -/
def RegenerationManager.invalidate_opening (m : RegenerationManager)
    (opening_id : OpeningId) (wall_id : WallId) : RegenerationManager :=
  { dirty_walls := fun x => if x = wall_id then true else m.dirty_walls x
    opening_wall_map := fun o =>
      if o = opening_id then some wall_id else m.opening_wall_map o }

/-- RegenerationManager::invalidate_opening_by_id (framing/regeneration.rs
lines 53-60): returns the updated manager and whether the opening was
known. -/
def RegenerationManager.invalidate_opening_by_id (m : RegenerationManager)
    (opening_id : OpeningId) : RegenerationManager × Bool :=
  match m.opening_wall_map opening_id with
  | some wall_id =>
    ({ m with
        dirty_walls := fun x => if x = wall_id then true else m.dirty_walls x },
      true)
  | none => (m, false)

/-- RegenerationManager::remove_opening (framing/regeneration.rs lines
63-68): drops the mapping and marks the owning wall dirty. -/
def RegenerationManager.remove_opening (m : RegenerationManager)
    (opening_id : OpeningId) : RegenerationManager :=
  match m.opening_wall_map opening_id with
  | some wall_id =>
    { dirty_walls := fun x => if x = wall_id then true else m.dirty_walls x
      opening_wall_map := fun o =>
        if o = opening_id then none else m.opening_wall_map o }
  | none => m

/-- RegenerationManager::is_wall_dirty (framing/regeneration.rs lines
81-83). -/
def RegenerationManager.is_wall_dirty (m : RegenerationManager)
    (wall_id : WallId) : Bool :=
  m.dirty_walls wall_id

/-- RegenerationManager::mark_clean (framing/regeneration.rs lines 91-93). -/
def RegenerationManager.mark_clean (m : RegenerationManager)
    (wall_id : WallId) : RegenerationManager :=
  { m with dirty_walls := fun x => if x = wall_id then false else m.dirty_walls x }

/-- RegenerationManager::clear (framing/regeneration.rs lines 96-98). -/
def RegenerationManager.clear (m : RegenerationManager) : RegenerationManager :=
  { m with dirty_walls := fun _ => false }

/-- RegenerationManager::reset (framing/regeneration.rs lines 101-104). -/
def RegenerationManager.reset (_m : RegenerationManager) : RegenerationManager :=
  { dirty_walls := fun _ => false, opening_wall_map := fun _ => none }

/-- RegenerationManager::register_opening (framing/regeneration.rs lines
109-111): registers the mapping without marking dirty. -/
def RegenerationManager.register_opening (m : RegenerationManager)
    (opening_id : OpeningId) (wall_id : WallId) : RegenerationManager :=
  { m with opening_wall_map := fun o =>
      if o = opening_id then some wall_id else m.opening_wall_map o }

/-- RegenerationManager::get_wall_for_opening (framing/regeneration.rs lines
114-116). -/
def RegenerationManager.get_wall_for_opening (m : RegenerationManager)
    (opening_id : OpeningId) : Option WallId :=
  m.opening_wall_map opening_id

/-- The left edge of a rough opening along the wall, as computed throughout
framing/generator.rs. -/
def ro_left_edge (ro : RoughOpening) : ℚ :=
  ro.position_along_wall - ro.width / 2

/-- The right edge of a rough opening along the wall. -/
def ro_right_edge (ro : RoughOpening) : ℚ :=
  ro.position_along_wall + ro.width / 2

/-- The edge to edge gap between two rough openings, the quantity the spec
means by closer than a 3.5 inch gap: negative when the openings overlap. -/
def ro_gap (ro1 ro2 : RoughOpening) : ℚ :=
  max (ro_left_edge ro2 - ro_right_edge ro1) (ro_left_edge ro1 - ro_right_edge ro2)

/-- Concrete wall for the 120 by 96 inch scenario of the spec test list:
axis aligned, default framing configuration. -/
def cW120 : Wall :=
  { id := ⟨1⟩, start := ⟨0, 0⟩, end_ := ⟨120, 0⟩, height := 96,
    base_offset := 0, framing_config := WallFramingConfig.default }

/-- Concrete wall of length 10 and height 12: passes the dimension
validation (length at least 1, height at least 12) with the default
configuration. -/
def cW10 : Wall :=
  { id := ⟨2⟩, start := ⟨0, 0⟩, end_ := ⟨10, 0⟩, height := 12,
    base_offset := 0, framing_config := WallFramingConfig.default }

/-- Concrete wall of length 100 and height 96 carrying the door cDoor. -/
def cW100 : Wall :=
  { id := ⟨3⟩, start := ⟨0, 0⟩, end_ := ⟨100, 0⟩, height := 96,
    base_offset := 0, framing_config := WallFramingConfig.default }

/-- A 36 by 80 inch door on cW100, centered 77 inches along the wall. -/
def cDoor : Opening :=
  { id := ⟨31⟩, wall_id := ⟨3⟩, opening_type := .Door,
    position_along_wall := 77 / 100, width := 36, height := 80,
    sill_height := 0 }

/-- The rough opening that compute_rough_opening produces for cDoor on
cW100: width 38, edges at 58 and 96, one jack stud, no sill. -/
def cRo100 : RoughOpening :=
  { opening_id := ⟨31⟩, width := 38, height := 80.5,
    position_along_wall := 77, jack_stud_count := 1, header_depth := 7.25,
    header_type := .TripleLumber, requires_sill := false }

/-- Concrete wall of length 2 and height 96: the smallest convenient
success case, used to instantiate theorems with hypotheses. -/
def cW2 : Wall :=
  { id := ⟨4⟩, start := ⟨0, 0⟩, end_ := ⟨2, 0⟩, height := 96,
    base_offset := 0, framing_config := WallFramingConfig.default }

/-- Concrete wall of length 240 and height 96 carrying the two overlapping
windows cWinA and cWinB. -/
def cW240 : Wall :=
  { id := ⟨5⟩, start := ⟨0, 0⟩, end_ := ⟨240, 0⟩, height := 96,
    base_offset := 0, framing_config := WallFramingConfig.default }

/-- A 36 by 48 inch window on cW240 centered 100 inches along the wall. -/
def cWinA : Opening :=
  { id := ⟨51⟩, wall_id := ⟨5⟩, opening_type := .Window,
    position_along_wall := 100 / 240, width := 36, height := 48,
    sill_height := 36 }

/-- A 36 by 48 inch window on cW240 centered 110 inches along the wall, 10
inches from the center of cWinA. -/
def cWinB : Opening :=
  { id := ⟨52⟩, wall_id := ⟨5⟩, opening_type := .Window,
    position_along_wall := 110 / 240, width := 36, height := 48,
    sill_height := 36 }

/-- Concrete wall of length 144 and height 96 carrying the window cWin144. -/
def cW144 : Wall :=
  { id := ⟨6⟩, start := ⟨0, 0⟩, end_ := ⟨144, 0⟩, height := 96,
    base_offset := 0, framing_config := WallFramingConfig.default }

/-- A 36 by 48 inch window centered on cW144 with a 36 inch sill height. -/
def cWin144 : Opening :=
  { id := ⟨61⟩, wall_id := ⟨6⟩, opening_type := .Window,
    position_along_wall := 1 / 2, width := 36, height := 48,
    sill_height := 36 }

/-- The closeness condition that the source overlap check tests for a pair
of rough openings. -/
def too_close (ro1 ro2 : RoughOpening) : Prop :=
  ro_right_edge ro1 + 3.5 > ro_left_edge ro2 ∧
    ro_right_edge ro2 + 3.5 > ro_left_edge ro1

instance (ro1 ro2 : RoughOpening) : Decidable (too_close ro1 ro2) := by
  unfold too_close; infer_instance

/-- The rough opening computed for cWinA on cW240: window tolerances applied
to a 36 by 48 window centered at 100 inches. -/
def cRoA : RoughOpening :=
  { opening_id := ⟨51⟩, width := 37, height := 48.5,
    position_along_wall := 100, jack_stud_count := 1, header_depth := 7.25,
    header_type := .TripleLumber, requires_sill := true }

/-- The rough opening computed for cWinB on cW240, centered at 110 inches. -/
def cRoB : RoughOpening :=
  { opening_id := ⟨52⟩, width := 37, height := 48.5,
    position_along_wall := 110, jack_stud_count := 1, header_depth := 7.25,
    header_type := .TripleLumber, requires_sill := true }

/-- The rough opening computed for cWin144 on cW144. -/
def cRoW144 : RoughOpening :=
  { opening_id := ⟨61⟩, width := 37, height := 48.5,
    position_along_wall := 72, jack_stud_count := 1, header_depth := 7.25,
    header_type := .TripleLumber, requires_sill := true }

/-- Helper for evaluating the fuel expressions: Int.toNat of a numeral. -/
lemma int_toNat_inst (n : ℕ) :
    Int.toNat (no_index (OfNat.ofNat n)) = OfNat.ofNat n := rfl

/-- The length of an axis aligned wall running left to right is the
difference of the x coordinates (the model square root is exact here). -/
lemma wall_length_horizontal (i : WallId) (a b c h bo : ℚ)
    (cfg : WallFramingConfig) (hab : a ≤ b) :
    (Wall.mk i ⟨a, c⟩ ⟨b, c⟩ h bo cfg).length = b - a := by
  unfold Wall.length Point2.distance_to
  have h1 : (a - b) * (a - b) + (c - c) * (c - c) = (b - a) * (b - a) := by
    ring
  simp only [h1, Rat.sqrt_eq]
  exact abs_of_nonneg (by linarith)

@[simp] lemma FramingMember.new_member_type (t ls mat pos len rot wid) :
    (FramingMember.new t ls mat pos len rot wid).member_type = t := rfl

@[simp] lemma FramingMember.new_length (t ls mat pos len rot wid) :
    (FramingMember.new t ls mat pos len rot wid).length = len := rfl

@[simp] lemma FramingMember.new_wall_id (t ls mat pos len rot wid) :
    (FramingMember.new t ls mat pos len rot wid).wall_id = wid := rfl

@[simp] lemma FramingMember.new_position (t ls mat pos len rot wid) :
    (FramingMember.new t ls mat pos len rot wid).position = pos := rfl

@[simp] lemma FramingMember.new_lumber_size (t ls mat pos len rot wid) :
    (FramingMember.new t ls mat pos len rot wid).lumber_size = ls := rfl

@[simp] lemma FramingMember.with_opening_member_type (m : FramingMember) (o) :
    (m.with_opening o).member_type = m.member_type := rfl

@[simp] lemma FramingMember.with_opening_length (m : FramingMember) (o) :
    (m.with_opening o).length = m.length := rfl

@[simp] lemma FramingMember.with_opening_wall_id (m : FramingMember) (o) :
    (m.with_opening o).wall_id = m.wall_id := rfl

@[simp] lemma FramingMember.with_opening_position (m : FramingMember) (o) :
    (m.with_opening o).position = m.position := rfl

@[simp] lemma mk_stud_member_type (wall config z h p) :
    (mk_stud wall config z h p).member_type = .Stud := rfl

@[simp] lemma mk_stud_length (wall config z h p) :
    (mk_stud wall config z h p).length = h := rfl

@[simp] lemma mk_stud_wall_id (wall config z h p) :
    (mk_stud wall config z h p).wall_id = wall.id := rfl

@[simp] lemma mk_stud_position_x (wall config z h p) :
    (mk_stud wall config z h p).position.x
      = wall.start.x + wall.direction.1 * p := rfl

@[simp] lemma mk_cripple_member_type (wall config ro z h p) :
    (mk_cripple wall config ro z h p).member_type = .CrippleStud := rfl

@[simp] lemma mk_cripple_wall_id (wall config ro z h p) :
    (mk_cripple wall config ro z h p).wall_id = wall.id := rfl

@[simp] lemma mk_fire_block_member_type (wall config rot z p) :
    (mk_fire_block wall config rot z p).member_type = .FireBlocking := rfl

@[simp] lemma mk_fire_block_wall_id (wall config rot z p) :
    (mk_fire_block wall config rot z p).wall_id = wall.id := rfl

/-- Folding add_member appends the members in order. -/
lemma foldl_add_member_members (ms : List FramingMember) :
    ∀ l : FramingLayout,
      (ms.foldl FramingLayout.add_member l).members = l.members ++ ms := by
  induction ms with
  | nil => intro l; simp
  | cons m ms ih =>
    intro l
    simp [List.foldl_cons, ih, FramingLayout.add_member]

/-- Folding add_member never changes the owning wall id. -/
lemma foldl_add_member_wall_id (ms : List FramingMember) :
    ∀ l : FramingLayout,
      (ms.foldl FramingLayout.add_member l).wall_id = l.wall_id := by
  induction ms with
  | nil => intro l; rfl
  | cons m ms ih =>
    intro l
    simp [List.foldl_cons, ih, FramingLayout.add_member]

@[simp] lemma recalculate_totals_members (l : FramingLayout) :
    l.recalculate_totals.members = l.members := rfl

@[simp] lemma recalculate_totals_wall_id (l : FramingLayout) :
    l.recalculate_totals.wall_id = l.wall_id := rfl

lemma recalculate_totals_board_feet (l : FramingLayout) :
    l.recalculate_totals.total_board_feet
      = (l.members.map FramingMember.board_feet).sum := rfl

lemma recalculate_totals_stud_count (l : FramingLayout) :
    l.recalculate_totals.stud_count
      = (l.members.filter fun m =>
          m.member_type = .Stud ∨ m.member_type = .KingStud ∨
          m.member_type = .JackStud ∨ m.member_type = .CrippleStud).length := rfl

lemma cW120_length : cW120.length = 120 := by
  have := wall_length_horizontal ⟨1⟩ 0 120 0 96 0 WallFramingConfig.default
    (by norm_num)
  simpa [cW120] using this

lemma cW120_direction : cW120.direction = (1, 0) := by
  unfold Wall.direction
  rw [cW120_length]
  norm_num [cW120]

lemma cW10_length : cW10.length = 10 := by
  have := wall_length_horizontal ⟨2⟩ 0 10 0 12 0 WallFramingConfig.default
    (by norm_num)
  simpa [cW10] using this

lemma cW100_length : cW100.length = 100 := by
  have := wall_length_horizontal ⟨3⟩ 0 100 0 96 0 WallFramingConfig.default
    (by norm_num)
  simpa [cW100] using this

lemma cW100_direction : cW100.direction = (1, 0) := by
  unfold Wall.direction
  rw [cW100_length]
  norm_num [cW100]

lemma cW2_length : cW2.length = 2 := by
  have := wall_length_horizontal ⟨4⟩ 0 2 0 96 0 WallFramingConfig.default
    (by norm_num)
  simpa [cW2] using this

lemma cW240_length : cW240.length = 240 := by
  have := wall_length_horizontal ⟨5⟩ 0 240 0 96 0 WallFramingConfig.default
    (by norm_num)
  simpa [cW240] using this

lemma cW144_length : cW144.length = 144 := by
  have := wall_length_horizontal ⟨6⟩ 0 144 0 96 0 WallFramingConfig.default
    (by norm_num)
  simpa [cW144] using this

/-- Structure of every successful run of generate_wall_framing: the
validations passed, each generation stage produced its members, and the
final member list is plates, then grid studs, then opening framing, then
blocking, with the totals freshly recomputed. -/
lemma generate_ok_decomp (wall : Wall) (a : WallAssembly) (ops : List Opening)
    (l : FramingLayout)
    (h : generate_wall_framing wall a ops = some (.ok l)) :
    ∃ ros pos oms blocking,
      compute_all_rough_openings wall ops wall.framing_config = .ok ros ∧
      validate_openings_no_overlap ros = .ok () ∧
      stud_positions wall wall.framing_config ros = some pos ∧
      ros.mapM (fun ro => generate_opening_framing wall ro wall.framing_config)
        = some oms ∧
      (wall.framing_config.fire_blocking_required = true →
        generate_fire_blocking wall wall.framing_config ros wall.direction
          = some blocking) ∧
      (wall.framing_config.fire_blocking_required = false → blocking = []) ∧
      l.wall_id = wall.id ∧
      l.members =
        generate_plates wall wall.framing_config wall.direction ++
        pos.map (mk_stud wall wall.framing_config
          (wall.base_offset +
            wall.framing_config.lumber_size.actual_dimensions.2)
          (wall.height -
            (if wall.framing_config.double_top_plate then (3 : ℚ) else 2) *
            wall.framing_config.lumber_size.actual_dimensions.2)) ++
        oms.flatten ++ blocking ∧
      l.total_board_feet = (l.members.map FramingMember.board_feet).sum ∧
      l.stud_count = (l.members.filter fun m =>
          m.member_type = .Stud ∨ m.member_type = .KingStud ∨
          m.member_type = .JackStud ∨ m.member_type = .CrippleStud).length := by
  unfold generate_wall_framing at h
  dsimp only at h
  split_ifs at h with h1 h2 hf
  · simp at h
  · simp at h
  · cases hc : compute_all_rough_openings wall ops wall.framing_config with
    | error e => rw [hc] at h; simp at h
    | ok ros =>
    rw [hc] at h
    dsimp only at h
    cases hv : validate_openings_no_overlap ros with
    | error e => rw [hv] at h; simp at h
    | ok u =>
    rw [hv] at h
    dsimp only at h
    cases hs : generate_studs wall wall.framing_config ros with
    | none => rw [hs] at h; simp at h
    | some studs =>
    rw [hs] at h
    simp only [Option.bind_eq_bind, Option.some_bind] at h
    cases hm : List.mapM
        (fun ro => generate_opening_framing wall ro wall.framing_config)
        ros with
    | none => rw [hm] at h; simp at h
    | some oms =>
    rw [hm] at h
    simp only [Option.bind_eq_bind, Option.some_bind] at h
    cases hb : generate_fire_blocking wall wall.framing_config ros
        wall.direction with
    | none => rw [hb] at h; simp at h
    | some blocking =>
    rw [hb] at h
    simp only [Option.bind_eq_bind, Option.some_bind, Option.pure_def,
      Option.some.injEq, Except.ok.injEq] at h
    obtain ⟨pos, hpos, hstuds⟩ :
        ∃ pos, stud_positions wall wall.framing_config ros = some pos ∧
          studs = pos.map (mk_stud wall wall.framing_config
            (wall.base_offset +
              wall.framing_config.lumber_size.actual_dimensions.2)
            (wall.height -
              (if wall.framing_config.double_top_plate then (3 : ℚ) else 2) *
              wall.framing_config.lumber_size.actual_dimensions.2)) := by
      unfold generate_studs at hs
      rcases Option.map_eq_some'.mp hs with ⟨pos, hp, hmap⟩
      exact ⟨pos, hp, hmap.symm⟩
    refine ⟨ros, pos, oms, blocking, rfl, hv, hpos, hm,
      fun _ => hb, fun hff => by rw [hf] at hff; exact Bool.noConfusion hff,
      ?_, ?_, ?_, ?_⟩
    · rw [← h]
      simp [foldl_add_member_wall_id, FramingLayout.new]
    · rw [← h, hstuds]
      simp [foldl_add_member_members, FramingLayout.new]
    · rw [← h]
      simp [recalculate_totals_board_feet]
    · rw [← h]
      simp [recalculate_totals_stud_count]
  · cases hc : compute_all_rough_openings wall ops wall.framing_config with
    | error e => rw [hc] at h; simp at h
    | ok ros =>
    rw [hc] at h
    dsimp only at h
    cases hv : validate_openings_no_overlap ros with
    | error e => rw [hv] at h; simp at h
    | ok u =>
    rw [hv] at h
    dsimp only at h
    cases hs : generate_studs wall wall.framing_config ros with
    | none => rw [hs] at h; simp at h
    | some studs =>
    rw [hs] at h
    simp only [Option.bind_eq_bind, Option.some_bind] at h
    cases hm : List.mapM
        (fun ro => generate_opening_framing wall ro wall.framing_config)
        ros with
    | none => rw [hm] at h; simp at h
    | some oms =>
    rw [hm] at h
    simp only [Option.bind_eq_bind, Option.some_bind, Option.pure_def,
      Option.some.injEq, Except.ok.injEq] at h
    obtain ⟨pos, hpos, hstuds⟩ :
        ∃ pos, stud_positions wall wall.framing_config ros = some pos ∧
          studs = pos.map (mk_stud wall wall.framing_config
            (wall.base_offset +
              wall.framing_config.lumber_size.actual_dimensions.2)
            (wall.height -
              (if wall.framing_config.double_top_plate then (3 : ℚ) else 2) *
              wall.framing_config.lumber_size.actual_dimensions.2)) := by
      unfold generate_studs at hs
      rcases Option.map_eq_some'.mp hs with ⟨pos, hp, hmap⟩
      exact ⟨pos, hp, hmap.symm⟩
    refine ⟨ros, pos, oms, [], rfl, hv, hpos, hm,
      fun hft => absurd hft hf, fun _ => rfl,
      ?_, ?_, ?_, ?_⟩
    · rw [← h]
      simp [foldl_add_member_wall_id, FramingLayout.new]
    · rw [← h, hstuds]
      simp [foldl_add_member_members, FramingLayout.new]
    · rw [← h]
      simp [recalculate_totals_board_feet]
    · rw [← h]
      simp [recalculate_totals_stud_count]

/-- Forward form of the success case: when both validations pass, the stud
positions and every opening framing compute, and fire blocking is off, the
generator succeeds and its member list is plates, then studs, then opening
framing. -/
lemma generate_ok_construct (wall : Wall) (a : WallAssembly)
    (ops : List Opening) (ros : List RoughOpening) (pos : List ℚ)
    (oms : List (List FramingMember))
    (h1 : ¬ wall.length < 1) (h2 : ¬ wall.height < 12)
    (hc : compute_all_rough_openings wall ops wall.framing_config = .ok ros)
    (hv : validate_openings_no_overlap ros = .ok ())
    (hpos : stud_positions wall wall.framing_config ros = some pos)
    (hm : ros.mapM
      (fun ro => generate_opening_framing wall ro wall.framing_config)
      = some oms)
    (hf : wall.framing_config.fire_blocking_required = false) :
    ∃ l, generate_wall_framing wall a ops = some (.ok l) ∧
      l.wall_id = wall.id ∧
      l.members =
        generate_plates wall wall.framing_config wall.direction ++
        pos.map (mk_stud wall wall.framing_config
          (wall.base_offset +
            wall.framing_config.lumber_size.actual_dimensions.2)
          (wall.height -
            (if wall.framing_config.double_top_plate then (3 : ℚ) else 2) *
            wall.framing_config.lumber_size.actual_dimensions.2)) ++
        oms.flatten := by
  have hs : generate_studs wall wall.framing_config ros
      = some (pos.map (mk_stud wall wall.framing_config
          (wall.base_offset +
            wall.framing_config.lumber_size.actual_dimensions.2)
          (wall.height -
            (if wall.framing_config.double_top_plate then (3 : ℚ) else 2) *
            wall.framing_config.lumber_size.actual_dimensions.2))) := by
    unfold generate_studs
    rw [hpos]
    rfl
  obtain ⟨l, hl⟩ : ∃ l, generate_wall_framing wall a ops = some (.ok l) := by
    apply Exists.intro
    unfold generate_wall_framing
    dsimp only
    rw [if_neg h1, if_neg h2, hc]
    dsimp only
    rw [hv]
    dsimp only
    rw [hs]
    simp only [Option.bind_eq_bind, Option.some_bind]
    rw [hm]
    simp only [Option.bind_eq_bind, Option.some_bind]
    rw [if_neg (by rw [hf]; exact Bool.noConfusion)]
    simp only [Option.pure_def, Option.bind_eq_bind, Option.some_bind]
    rfl
  obtain ⟨ros2, pos2, oms2, blocking, hc2, hv2, hpos2, hm2, hft, hff,
    hwid, hmem, _, _⟩ := generate_ok_decomp wall a ops l hl
  rw [hc] at hc2
  obtain rfl : ros2 = ros := (Except.ok.inj hc2).symm
  rw [hpos] at hpos2
  obtain rfl : pos2 = pos := (Option.some.inj hpos2).symm
  rw [hm] at hm2
  obtain rfl : oms2 = oms := (Option.some.inj hm2).symm
  obtain rfl : blocking = [] := hff hf
  refine ⟨l, hl, hwid, ?_⟩
  simpa using hmem

/-- Every plate member is owned by the wall and has a plate type. -/
lemma generate_plates_mem (wall : Wall) (config : WallFramingConfig)
    (rot : ℚ × ℚ) :
    ∀ m ∈ generate_plates wall config rot,
      m.wall_id = wall.id ∧
      (m.member_type = .BottomPlate ∨ m.member_type = .TopPlate ∨
        m.member_type = .DoubleTopPlate) ∧
      m.length = wall.length := by
  intro m hm
  unfold generate_plates at hm
  by_cases hd : config.double_top_plate
  · rw [if_pos hd] at hm
    simp only [List.mem_append, List.mem_cons, List.mem_singleton,
      List.not_mem_nil, or_false] at hm
    rcases hm with (h | h) | h <;> subst h <;> simp
  · rw [if_neg hd] at hm
    simp only [List.mem_cons, List.mem_singleton, List.not_mem_nil,
      or_false] at hm
    rcases hm with h | h <;> subst h <;> simp

/-- Every cripple member is owned by the wall and typed CrippleStud. -/
lemma generate_cripples_mem (wall : Wall) (config : WallFramingConfig)
    (ro : RoughOpening) (z hgt : ℚ) (b : Bool) (ms : List FramingMember)
    (h : generate_cripples wall config ro z hgt b = some ms) :
    ∀ m ∈ ms, m.wall_id = wall.id ∧ m.member_type = .CrippleStud := by
  unfold generate_cripples at h
  rcases Option.map_eq_some'.mp h with ⟨ps, _, hmap⟩
  intro m hm
  rw [← hmap] at hm
  rcases List.mem_map.mp hm with ⟨p, _, hp⟩
  subst hp
  simp

/-- Every member that generate_opening_framing emits is owned by the wall
and of an opening framing type (never a plain stud, a plate, or a fire
block). -/
lemma generate_opening_framing_mem (wall : Wall) (ro : RoughOpening)
    (config : WallFramingConfig) (ms : List FramingMember)
    (h : generate_opening_framing wall ro config = some ms) :
    ∀ m ∈ ms,
      m.wall_id = wall.id ∧
      (m.member_type = .KingStud ∨ m.member_type = .JackStud ∨
        m.member_type = .Header ∨ m.member_type = .Sill ∨
        m.member_type = .CrippleStud) := by
  unfold generate_opening_framing at h
  dsimp only at h
  generalize hq : (if config.double_top_plate = true then (3 : ℚ) else 2) = pc
    at h
  rcases Option.bind_eq_some.mp h with ⟨sill_members, hsm, h2⟩
  rcases Option.bind_eq_some.mp h2 with ⟨cripples_above, hca, h3⟩
  replace h3 := Option.some.inj h3
  have hsm2 : ∀ m ∈ sill_members,
      m.wall_id = wall.id ∧
      (m.member_type = .Sill ∨ m.member_type = .CrippleStud) := by
    split at hsm
    · split at hsm
      · rcases Option.map_eq_some'.mp hsm with ⟨cb, hcb, hmap⟩
        intro m hm
        rw [← hmap] at hm
        rcases List.mem_cons.mp hm with h1 | h1
        · subst h1; simp
        · rcases generate_cripples_mem _ _ _ _ _ _ _ hcb m h1 with ⟨hw, ht⟩
          exact ⟨hw, Or.inr ht⟩
      · replace hsm := Option.some.inj hsm
        intro m hm
        rw [← hsm] at hm
        rcases List.mem_singleton.mp hm with h1
        subst h1; simp
    · replace hsm := Option.some.inj hsm
      intro m hm
      rw [← hsm] at hm
      simp at hm
  have hca2 : ∀ m ∈ cripples_above,
      m.wall_id = wall.id ∧ m.member_type = .CrippleStud := by
    split at hca
    · exact generate_cripples_mem _ _ _ _ _ _ _ hca
    · replace hca := Option.some.inj hca
      intro m hm
      rw [← hca] at hm
      simp at hm
  intro m hm
  rw [← h3] at hm
  simp only [List.mem_append, List.mem_cons, List.mem_singleton,
    List.not_mem_nil, or_false] at hm
  rcases hm with ((((h1 | h1) | h1) | h1) | h1) | h1
  · subst h1; simp
  · subst h1; simp
  · rcases List.mem_flatMap.mp h1 with ⟨i, _, hmi⟩
    rcases List.mem_cons.mp hmi with h2 | h2
    · subst h2; simp
    · rcases List.mem_singleton.mp h2 with h2
      subst h2; simp
  · subst h1; simp
  · rcases hsm2 m h1 with ⟨hw, ht⟩
    refine ⟨hw, ?_⟩
    rcases ht with ht | ht
    · exact Or.inr (Or.inr (Or.inr (Or.inl ht)))
    · exact Or.inr (Or.inr (Or.inr (Or.inr ht)))
  · rcases hca2 m h1 with ⟨hw, ht⟩
    exact ⟨hw, Or.inr (Or.inr (Or.inr (Or.inr ht)))⟩

/-- Every fire blocking member is owned by the wall and typed
FireBlocking. -/
lemma generate_fire_blocking_mem (wall : Wall) (config : WallFramingConfig)
    (ros : List RoughOpening) (rot : ℚ × ℚ) (ms : List FramingMember)
    (h : generate_fire_blocking wall config ros rot = some ms) :
    ∀ m ∈ ms, m.wall_id = wall.id ∧ m.member_type = .FireBlocking := by
  unfold generate_fire_blocking at h
  rcases Option.map_eq_some'.mp h with ⟨ps, _, hmap⟩
  intro m hm
  rw [← hmap] at hm
  rcases List.mem_map.mp hm with ⟨p, _, hp⟩
  subst hp
  simp [mk_fire_block]

/-- Every position the stud grid loop emits was checked to be clear of
every exclusion zone. -/
lemma stud_grid_loop_clear (spacing lumber_width end_position : ℚ)
    (ros : List RoughOpening) :
    ∀ (fuel : Nat) (p0 : ℚ) (xs : List ℚ),
      stud_grid_loop spacing lumber_width end_position ros fuel p0 = some xs →
      ∀ p ∈ xs, position_in_opening p lumber_width ros = false := by
  intro fuel
  induction fuel with
  | zero =>
    intro p0 xs h p hp
    unfold stud_grid_loop at h
    split at h
    · exact absurd h (by simp)
    · replace h := Option.some.inj h
      rw [← h] at hp
      simp at hp
  | succ n ih =>
    intro p0 xs h p hp
    unfold stud_grid_loop at h
    split at h
    · split at h
      case isTrue hin =>
        exact ih _ xs h p hp
      case isFalse hin =>
        rcases Option.map_eq_some'.mp h with ⟨rest, hrest, hmap⟩
        rw [← hmap] at hp
        rcases List.mem_cons.mp hp with h1 | h1
        · subst h1
          exact Bool.eq_false_iff.mpr hin
        · exact ih _ rest hrest p h1
    · replace h := Option.some.inj h
      rw [← h] at hp
      simp at hp

/-- Every position that stud_positions emits is either a grid position that
was checked to be clear of every exclusion zone, or it is the trailing end
stud position wall_length minus lumber_width, added after checking only the
position wall_length minus half the lumber width. -/
lemma stud_positions_spec (wall : Wall) (config : WallFramingConfig)
    (ros : List RoughOpening) (xs : List ℚ)
    (h : stud_positions wall config ros = some xs) :
    ∀ p ∈ xs,
      position_in_opening p config.lumber_size.actual_dimensions.1 ros
          = false ∨
      (p = wall.length - config.lumber_size.actual_dimensions.1 ∧
        position_in_opening
          (wall.length - config.lumber_size.actual_dimensions.1 / 2)
          config.lumber_size.actual_dimensions.1 ros = false) := by
  unfold stud_positions at h
  dsimp only at h
  simp only [Option.bind_eq_bind, Option.bind_eq_some, Option.pure_def,
    Option.some.injEq] at h
  obtain ⟨grid, hgrid, h2⟩ := h
  have hgclear := stud_grid_loop_clear config.stud_spacing
    config.lumber_size.actual_dimensions.1
    (wall.length - config.lumber_size.actual_dimensions.1) ros _ _ _ hgrid
  intro p hp
  split at h2
  case isTrue hend =>
    split at h2
    · rw [← Option.some.inj h2] at hp
      rcases List.mem_append.mp hp with h1 | h1
      · exact Or.inl (hgclear p h1)
      · rcases List.mem_singleton.mp h1 with h1
        subst h1
        refine Or.inr ⟨rfl, ?_⟩
        simpa using hend
    · rw [← Option.some.inj h2] at hp
      exact Or.inl (hgclear p hp)
  case isFalse hend =>
    rw [← Option.some.inj h2] at hp
    exact Or.inl (hgclear p hp)

/-- The source closeness test is exactly an edge to edge gap below 3.5
inches. -/
lemma too_close_iff_gap (ro1 ro2 : RoughOpening) :
    too_close ro1 ro2 ↔ ro_gap ro1 ro2 < 3.5 := by
  unfold too_close ro_gap
  rw [max_lt_iff]
  constructor
  · rintro ⟨h1, h2⟩
    constructor <;> linarith
  · rintro ⟨h1, h2⟩
    constructor <;> linarith

lemma validate_pair_against_ok_iff (ro1 : RoughOpening) :
    ∀ rest : List RoughOpening,
      validate_pair_against ro1 rest = .ok () ↔
        ∀ ro2 ∈ rest, ¬ too_close ro1 ro2 := by
  intro rest
  induction rest with
  | nil => simp [validate_pair_against]
  | cons ro2 rest ih =>
    unfold validate_pair_against
    dsimp only
    split
    case isTrue hcl =>
      simp only [List.mem_cons]
      constructor
      · intro h; exact absurd h (by simp)
      · intro h
        exact absurd (h ro2 (Or.inl rfl)) (by simpa [too_close, ro_left_edge,
          ro_right_edge] using hcl)
    case isFalse hcl =>
      rw [ih]
      constructor
      · intro h ro3 h3
        rcases List.mem_cons.mp h3 with h4 | h4
        · subst h4
          simpa [too_close, ro_left_edge, ro_right_edge] using hcl
        · exact h ro3 h4
      · intro h ro3 h3
        exact h ro3 (List.mem_cons_of_mem _ h3)

lemma validate_pair_against_error (ro1 : RoughOpening) :
    ∀ (rest : List RoughOpening) (e : FramingError),
      validate_pair_against ro1 rest = .error e →
      ∃ ro2 ∈ rest,
        e = .OverlappingOpenings [ro1.opening_id, ro2.opening_id] ∧
        too_close ro1 ro2 := by
  intro rest
  induction rest with
  | nil => intro e h; exact absurd h (by simp [validate_pair_against])
  | cons ro2 rest ih =>
    intro e h
    unfold validate_pair_against at h
    dsimp only at h
    split at h
    case isTrue hcl =>
      replace h := Except.error.inj h
      exact ⟨ro2, List.mem_cons_self _ _,
        h.symm, by simpa [too_close, ro_left_edge, ro_right_edge] using hcl⟩
    case isFalse hcl =>
      rcases ih e h with ⟨ro3, h3, he, hc⟩
      exact ⟨ro3, List.mem_cons_of_mem _ h3, he, hc⟩

lemma validate_no_overlap_cons (ro1 : RoughOpening)
    (rest : List RoughOpening) :
    validate_openings_no_overlap (ro1 :: rest) =
      validate_pair_against ro1 rest >>= fun _ =>
        validate_openings_no_overlap rest := rfl

lemma validate_no_overlap_ok_iff :
    ∀ ros : List RoughOpening,
      validate_openings_no_overlap ros = .ok () ↔
        ros.Pairwise (fun a b => ¬ too_close a b) := by
  intro ros
  induction ros with
  | nil => simp [validate_openings_no_overlap]
  | cons ro1 rest ih =>
    rw [List.pairwise_cons, validate_no_overlap_cons]
    cases hp : validate_pair_against ro1 rest with
    | error e =>
      simp only [bind, Except.bind]
      constructor
      · intro h
        exact absurd h (by simp)
      · rintro ⟨hall, _⟩
        have hok := (validate_pair_against_ok_iff ro1 rest).mpr hall
        rw [hp] at hok
        exact absurd hok (by simp)
    | ok u =>
      cases u
      simp only [bind, Except.bind]
      constructor
      · intro h
        exact ⟨(validate_pair_against_ok_iff ro1 rest).mp hp, ih.mp h⟩
      · rintro ⟨_, h⟩
        exact ih.mpr h

lemma validate_no_overlap_error :
    ∀ (ros : List RoughOpening) (e : FramingError),
      validate_openings_no_overlap ros = .error e →
      ∃ a ∈ ros, ∃ b ∈ ros,
        e = .OverlappingOpenings [a.opening_id, b.opening_id] ∧
        too_close a b := by
  intro ros
  induction ros with
  | nil => intro e h; exact absurd h (by simp [validate_openings_no_overlap])
  | cons ro1 rest ih =>
    intro e h
    rw [validate_no_overlap_cons] at h
    cases hp : validate_pair_against ro1 rest with
    | error e2 =>
      rw [hp] at h
      simp only [bind, Except.bind] at h
      replace h := Except.error.inj h
      subst h
      rcases validate_pair_against_error ro1 rest e2 hp with ⟨ro2, h2, he, hc⟩
      exact ⟨ro1, List.mem_cons_self _ _, ro2, List.mem_cons_of_mem _ h2,
        he, hc⟩
    | ok u =>
      cases u
      rw [hp] at h
      simp only [bind, Except.bind] at h
      rcases ih e h with ⟨a, ha, b, hb, he, hc⟩
      exact ⟨a, List.mem_cons_of_mem _ ha, b, List.mem_cons_of_mem _ hb,
        he, hc⟩

/-- A validate run is either ok or an overlap error naming a too close
pair. -/
lemma validate_no_overlap_cases (ros : List RoughOpening) :
    validate_openings_no_overlap ros = .ok () ∨
    ∃ e, validate_openings_no_overlap ros = .error e := by
  cases h : validate_openings_no_overlap ros with
  | error e => exact Or.inr ⟨e, rfl⟩
  | ok u => cases u; exact Or.inl rfl

/-- Once the dimension checks and the rough opening computation succeed, the
generator forwards an overlap validation error unchanged, and after a
successful validation it can only diverge or succeed: no error is reported
any more. -/
lemma generate_after_validate (wall : Wall) (a : WallAssembly)
    (ops : List Opening) (ros : List RoughOpening)
    (h1 : ¬ wall.length < 1) (h2 : ¬ wall.height < 12)
    (hc : compute_all_rough_openings wall ops wall.framing_config = .ok ros) :
    (∀ e, validate_openings_no_overlap ros = .error e →
      generate_wall_framing wall a ops = some (.error e)) ∧
    (validate_openings_no_overlap ros = .ok () →
      generate_wall_framing wall a ops = none ∨
      ∃ l, generate_wall_framing wall a ops = some (.ok l)) := by
  constructor
  · intro e he
    unfold generate_wall_framing
    dsimp only
    rw [if_neg h1, if_neg h2, hc]
    dsimp only
    rw [he]
  · intro hv
    unfold generate_wall_framing
    dsimp only
    rw [if_neg h1, if_neg h2, hc]
    dsimp only
    rw [hv]
    dsimp only
    cases hs : generate_studs wall wall.framing_config ros with
    | none =>
      simp
    | some studs =>
    simp only [Option.bind_eq_bind, Option.some_bind]
    cases hm : List.mapM
        (fun ro => generate_opening_framing wall ro wall.framing_config)
        ros with
    | none =>
      simp
    | some oms =>
    simp only [Option.bind_eq_bind, Option.some_bind]
    by_cases hf : wall.framing_config.fire_blocking_required = true
    · rw [if_pos hf]
      cases hb : generate_fire_blocking wall wall.framing_config ros
          wall.direction with
      | none =>
        simp
      | some blocking =>
        simp only [Option.bind_eq_bind, Option.some_bind, Option.pure_def]
        exact Or.inr ⟨_, rfl⟩
    · rw [if_neg hf]
      simp only [Option.bind_eq_bind, Option.some_bind, Option.pure_def]
      exact Or.inr ⟨_, rfl⟩

lemma mapM_except_nil {α β ε : Type} (f : α → Except ε β) :
    List.mapM f ([] : List α) = .ok [] := rfl

lemma mapM_except_singleton {α β ε : Type} (f : α → Except ε β) (a : α)
    (b : β) (h : f a = .ok b) : List.mapM f [a] = .ok [b] := by
  unfold List.mapM List.mapM.loop
  rw [h]
  rfl

lemma mapM_except_pair {α β ε : Type} (f : α → Except ε β) (a1 a2 : α)
    (b1 b2 : β) (h1 : f a1 = .ok b1) (h2 : f a2 = .ok b2) :
    List.mapM f [a1, a2] = .ok [b1, b2] := by
  unfold List.mapM List.mapM.loop
  rw [h1]
  show List.mapM.loop f [a2] [b1] = _
  unfold List.mapM.loop
  rw [h2]
  rfl

lemma mapM_option_nil {α β : Type} (f : α → Option β) :
    List.mapM f ([] : List α) = some [] := rfl

lemma mapM_option_singleton {α β : Type} (f : α → Option β) (a : α)
    (b : β) (h : f a = some b) : List.mapM f [a] = some [b] := by
  unfold List.mapM List.mapM.loop
  rw [h]
  rfl

lemma stud_positions_cW120 :
    stud_positions cW120 WallFramingConfig.default []
      = some [0, 16, 32, 48, 64, 80, 96, 112, 118.5] := by
  rw [stud_positions]
  rw [cW120_length]
  norm_num [stud_grid_loop, position_in_opening, WallFramingConfig.default,
    LumberSize.actual_dimensions, int_toNat_inst, Option.bind, abs]

lemma stud_positions_cW10 :
    stud_positions cW10 WallFramingConfig.default [] = some [0, 8.5] := by
  rw [stud_positions]
  rw [cW10_length]
  norm_num [stud_grid_loop, position_in_opening, WallFramingConfig.default,
    LumberSize.actual_dimensions, int_toNat_inst, Option.bind, abs]

lemma stud_positions_cW2 :
    stud_positions cW2 WallFramingConfig.default [] = some [0] := by
  rw [stud_positions]
  rw [cW2_length]
  norm_num [stud_grid_loop, position_in_opening, WallFramingConfig.default,
    LumberSize.actual_dimensions, int_toNat_inst, Option.bind, abs]

lemma compute_ro_cDoor :
    compute_rough_opening cDoor cW100 WallFramingConfig.default
      = .ok cRo100 := by
  unfold compute_rough_opening
  dsimp only
  rw [cW100_length]
  norm_num [cDoor, cRo100, RoughOpening.for_door, HeaderType.for_span,
    WallFramingConfig.default, show cW100.height = 96 from rfl]

lemma compute_all_cW100 :
    compute_all_rough_openings cW100 [cDoor] WallFramingConfig.default
      = .ok [cRo100] := by
  unfold compute_all_rough_openings
  rw [show List.filter (fun o => decide (o.wall_id = cW100.id)) [cDoor]
      = [cDoor] from by simp [cDoor, cW100]]
  exact mapM_except_singleton _ _ _ compute_ro_cDoor

lemma stud_positions_cW100 :
    stud_positions cW100 WallFramingConfig.default [cRo100]
      = some [0, 16, 32, 48, 98.5] := by
  rw [stud_positions]
  rw [cW100_length]
  norm_num [stud_grid_loop, position_in_opening, WallFramingConfig.default,
    LumberSize.actual_dimensions, int_toNat_inst, Option.bind, abs, cRo100]

lemma compute_ro_cWinA :
    compute_rough_opening cWinA cW240 WallFramingConfig.default
      = .ok cRoA := by
  unfold compute_rough_opening
  dsimp only
  rw [cW240_length]
  norm_num [cWinA, cRoA, RoughOpening.for_window, HeaderType.for_span,
    WallFramingConfig.default, show cW240.height = 96 from rfl]

lemma compute_ro_cWinB :
    compute_rough_opening cWinB cW240 WallFramingConfig.default
      = .ok cRoB := by
  unfold compute_rough_opening
  dsimp only
  rw [cW240_length]
  norm_num [cWinB, cRoB, RoughOpening.for_window, HeaderType.for_span,
    WallFramingConfig.default, show cW240.height = 96 from rfl]

lemma compute_all_cW240 :
    compute_all_rough_openings cW240 [cWinA, cWinB] WallFramingConfig.default
      = .ok [cRoA, cRoB] := by
  unfold compute_all_rough_openings
  rw [show List.filter (fun o => decide (o.wall_id = cW240.id))
      [cWinA, cWinB] = [cWinA, cWinB] from by simp [cWinA, cWinB, cW240]]
  exact mapM_except_pair _ _ _ _ _ compute_ro_cWinA compute_ro_cWinB

lemma compute_ro_cWin144 :
    compute_rough_opening cWin144 cW144 WallFramingConfig.default
      = .ok cRoW144 := by
  unfold compute_rough_opening
  dsimp only
  rw [cW144_length]
  norm_num [cWin144, cRoW144, RoughOpening.for_window, HeaderType.for_span,
    WallFramingConfig.default, show cW144.height = 96 from rfl]

lemma gof_cW100 :
    ∃ om, generate_opening_framing cW100 cRo100 WallFramingConfig.default
      = some om := by
  apply Exists.intro
  unfold generate_opening_framing
  dsimp only
  rw [if_neg (by simp [cRo100])]
  rw [if_neg (by norm_num [cRo100, WallFramingConfig.default,
    LumberSize.actual_dimensions, show cW100.height = 96 from rfl,
    show cW100.base_offset = 0 from rfl])]
  simp only [Option.some_bind]
  rfl

/-- C8: size_header returns DoubleLumber for non load bearing spans up to 48
and TripleLumber beyond; for load bearing spans it returns DoubleLumber up
to 36, TripleLumber up to 60, LVL up to 96 and PSL beyond; in particular
size_header 36 false is DoubleLumber, size_header 72 true is LVL and
size_header 120 true is PSL. -/
theorem C8_size_header_table (span : ℚ) :
    (size_header span false
      = if span ≤ 48 then .DoubleLumber else .TripleLumber) ∧
    (size_header span true
      = if span ≤ 36 then .DoubleLumber
        else if span ≤ 60 then .TripleLumber
        else if span ≤ 96 then HeaderType.LVL
        else .PSL) ∧
    size_header 36 false = .DoubleLumber ∧
    size_header 72 true = HeaderType.LVL ∧
    size_header 120 true = .PSL := by
  refine ⟨?_, ?_, ?_, ?_, ?_⟩ <;>
    norm_num [size_header, HeaderType.for_span]

/-- C3 counterexample: at span 80 with is_load_bearing false the code
returns TwoByEight, not the TwoByTen that the 72 to 96 inch breakpoint of
the claim predicts for every flag. -/
theorem C3_counterexample_nonbearing :
    size_header_lumber 80 false = .TwoByEight ∧
    size_header_lumber 80 false ≠ .TwoByTen := by
  have h1 : size_header_lumber 80 false = .TwoByEight := by
    norm_num [size_header_lumber]
  exact ⟨h1, by rw [h1]; simp⟩

/-- C3 amended: the 48, 72, 96 and 120 inch breakpoints yielding 2x6 to
2x12 and the engineered Custom size above 120 apply only to load bearing
walls; a non load bearing wall gets 2x6 up to 48 inches and 2x8 for every
longer span. -/
theorem C3_amended_header_lumber (span : ℚ) :
    (size_header_lumber span true
      = if span ≤ 48 then .TwoBySix
        else if span ≤ 72 then .TwoByEight
        else if span ≤ 96 then .TwoByTen
        else if span ≤ 120 then .TwoByTwelve
        else .Custom 1.75 11.875) ∧
    (size_header_lumber span false
      = if span ≤ 48 then .TwoBySix else .TwoByEight) := by
  constructor <;> norm_num [size_header_lumber]

/-- C9: after remove_opening on an opening mapped to wall w, the wall w is
dirty and the mapping of the opening is gone. -/
theorem C9_remove_opening (m : RegenerationManager) (o : OpeningId)
    (w : WallId) (h : m.get_wall_for_opening o = some w) :
    (m.remove_opening o).is_wall_dirty w = true ∧
    (m.remove_opening o).get_wall_for_opening o = none := by
  unfold RegenerationManager.get_wall_for_opening at h
  unfold RegenerationManager.remove_opening RegenerationManager.is_wall_dirty
    RegenerationManager.get_wall_for_opening
  rw [h]
  simp

/-- C9 witness: a manager with opening 5 registered to wall 7. -/
theorem C9_remove_opening_witness :
    ((RegenerationManager.new.register_opening ⟨5⟩ ⟨7⟩).remove_opening
        ⟨5⟩).is_wall_dirty ⟨7⟩ = true ∧
    ((RegenerationManager.new.register_opening ⟨5⟩ ⟨7⟩).remove_opening
        ⟨5⟩).get_wall_for_opening ⟨5⟩ = none :=
  C9_remove_opening _ ⟨5⟩ ⟨7⟩ (by
    simp [RegenerationManager.new, RegenerationManager.register_opening,
      RegenerationManager.get_wall_for_opening])

lemma mapM_option_loop {α β : Type} (f : α → Option β) :
    ∀ (as : List α) (acc : List β),
      List.mapM.loop f as acc
        = (List.mapM f as).map (fun bs => acc.reverse ++ bs) := by
  intro as
  induction as with
  | nil =>
    intro acc
    simp [List.mapM, List.mapM.loop]
  | cons a as ih =>
    intro acc
    show (f a >>= fun b => List.mapM.loop f as (b :: acc)) = _
    rw [show List.mapM f (a :: as)
        = f a >>= fun b => List.mapM.loop f as [b] from rfl]
    cases hf : f a with
    | none => simp
    | some b =>
      simp only [Option.bind_eq_bind, Option.some_bind]
      rw [ih (b :: acc), ih [b]]
      cases hm : List.mapM f as with
      | none => simp
      | some bs => simp

lemma mapM_option_mem {α β : Type} (f : α → Option β) :
    ∀ (as : List α) (bs : List β),
      List.mapM f as = some bs → ∀ b ∈ bs, ∃ a ∈ as, f a = some b := by
  intro as
  induction as with
  | nil =>
    intro bs h b hb
    rw [show List.mapM f ([] : List α) = some [] from rfl] at h
    replace h := Option.some.inj h
    rw [← h] at hb
    simp at hb
  | cons a as ih =>
    intro bs h b hb
    rw [show List.mapM f (a :: as)
        = f a >>= fun c => List.mapM.loop f as [c] from rfl] at h
    cases hf : f a with
    | none => rw [hf] at h; simp at h
    | some c =>
      rw [hf] at h
      simp only [Option.bind_eq_bind, Option.some_bind] at h
      rw [mapM_option_loop] at h
      cases hm : List.mapM f as with
      | none => rw [hm] at h; simp at h
      | some bs2 =>
        rw [hm] at h
        simp only [Option.map_some'] at h
        replace h := Option.some.inj h
        rw [← h] at hb
        simp only [List.reverse_cons, List.reverse_nil, List.nil_append,
          List.cons_append, List.nil_append] at hb
        rcases List.mem_cons.mp hb with h1 | h1
        · exact ⟨a, List.mem_cons_self _ _, by rw [hf, h1]⟩
        · rcases ih bs2 hm b h1 with ⟨a2, ha2, hfa2⟩
          exact ⟨a2, List.mem_cons_of_mem _ ha2, hfa2⟩

/-- C6: recalculate_totals makes total_board_feet the fresh sum of the
members board feet (width times depth over 12, times length over 12) and
stud_count the fresh count of the vertical member types, and every layout
the generator returns satisfies both equations. -/
theorem C6_recalculated_totals :
    (∀ m : FramingMember, m.board_feet
      = m.lumber_size.actual_dimensions.1 * m.lumber_size.actual_dimensions.2
        / 12 * (m.length / 12)) ∧
    (∀ l : FramingLayout,
      l.recalculate_totals.total_board_feet
        = (l.members.map FramingMember.board_feet).sum ∧
      l.recalculate_totals.stud_count
        = (l.members.filter fun m =>
            m.member_type = .Stud ∨ m.member_type = .KingStud ∨
            m.member_type = .JackStud ∨
            m.member_type = .CrippleStud).length) ∧
    ∀ (wall : Wall) (a : WallAssembly) (ops : List Opening)
      (l : FramingLayout),
      generate_wall_framing wall a ops = some (.ok l) →
      l.total_board_feet = (l.members.map FramingMember.board_feet).sum ∧
      l.stud_count = (l.members.filter fun m =>
          m.member_type = .Stud ∨ m.member_type = .KingStud ∨
          m.member_type = .JackStud ∨ m.member_type = .CrippleStud).length := by
  refine ⟨?_, fun l => ⟨rfl, rfl⟩, ?_⟩
  · intro m
    unfold FramingMember.board_feet LumberSize.board_feet_per_foot
    rfl
  · intro wall a ops l h
    obtain ⟨_, _, _, _, _, _, _, _, _, _, _, _, hbf, hsc⟩ :=
      generate_ok_decomp wall a ops l h
    exact ⟨hbf, hsc⟩

/-- C6 witness: the totals equations instantiated on the layout generated
for the concrete wall cW2. -/
theorem C6_recalculated_totals_witness :
    ∃ l, generate_wall_framing cW2 ⟨⟩ [] = some (.ok l) ∧
      l.total_board_feet = (l.members.map FramingMember.board_feet).sum ∧
      l.stud_count = (l.members.filter fun m =>
          m.member_type = .Stud ∨ m.member_type = .KingStud ∨
          m.member_type = .JackStud ∨ m.member_type = .CrippleStud).length := by
  obtain ⟨l, hl, _, _⟩ := generate_ok_construct cW2 ⟨⟩ [] [] [0] []
    (by rw [cW2_length]; norm_num)
    (by norm_num [show cW2.height = 96 from rfl])
    rfl rfl stud_positions_cW2 rfl rfl
  exact ⟨l, hl, C6_recalculated_totals.2.2 cW2 ⟨⟩ [] l hl⟩

/-- C10: the layout the generator returns carries the id of the input wall,
and so does every member in it, even when the opening list mentions other
walls. -/
theorem C10_member_wall_ids (wall : Wall) (a : WallAssembly)
    (ops : List Opening) (l : FramingLayout)
    (h : generate_wall_framing wall a ops = some (.ok l)) :
    l.wall_id = wall.id ∧ ∀ m ∈ l.members, m.wall_id = wall.id := by
  obtain ⟨ros, pos, oms, blocking, hc, hv, hpos, hm, hft, hff, hwid, hmem,
    _, _⟩ := generate_ok_decomp wall a ops l h
  refine ⟨hwid, ?_⟩
  intro m hmm
  rw [hmem] at hmm
  simp only [List.append_assoc, List.mem_append] at hmm
  rcases hmm with h1 | h1 | h1 | h1
  · exact (generate_plates_mem wall wall.framing_config wall.direction m h1).1
  · rcases List.mem_map.mp h1 with ⟨p, _, hp⟩
    rw [← hp]
    simp
  · rcases List.mem_flatten.mp h1 with ⟨om, hom, hmem2⟩
    rcases mapM_option_mem _ ros oms hm om hom with ⟨ro, _, hro⟩
    exact (generate_opening_framing_mem wall ro wall.framing_config om hro
      m hmem2).1
  · cases hfb : wall.framing_config.fire_blocking_required with
    | false =>
      rw [hff hfb] at h1
      simp at h1
    | true =>
      exact (generate_fire_blocking_mem wall wall.framing_config ros
        wall.direction blocking (hft hfb) m h1).1

/-- C10 witness: the wall id propagation instantiated on the layout
generated for the concrete wall cW2. -/
theorem C10_member_wall_ids_witness :
    ∃ l, generate_wall_framing cW2 ⟨⟩ [] = some (.ok l) ∧
      l.wall_id = cW2.id ∧ ∀ m ∈ l.members, m.wall_id = cW2.id := by
  obtain ⟨l, hl, _, _⟩ := generate_ok_construct cW2 ⟨⟩ [] [] [0] []
    (by rw [cW2_length]; norm_num)
    (by norm_num [show cW2.height = 96 from rfl])
    rfl rfl stud_positions_cW2 rfl rfl
  exact ⟨l, hl, C10_member_wall_ids cW2 ⟨⟩ [] l hl⟩

/-- C1 amended: in every layout the generator returns, each member of type
Stud comes from a scalar position p along the wall, and either p is a grid
position checked to lie outside every exclusion zone, or p is the trailing
end stud position wall_length minus lumber_width, for which only the check
position wall_length minus half a lumber width is guaranteed outside every
zone (the end stud itself may stand inside a zone). -/
theorem C1_amended_stud_exclusion (wall : Wall) (a : WallAssembly)
    (ops : List Opening) (ros : List RoughOpening) (l : FramingLayout)
    (h : generate_wall_framing wall a ops = some (.ok l))
    (hros : compute_all_rough_openings wall ops wall.framing_config
      = .ok ros) :
    ∀ m ∈ l.members, m.member_type = .Stud →
      ∃ p, m = mk_stud wall wall.framing_config
          (wall.base_offset +
            wall.framing_config.lumber_size.actual_dimensions.2)
          (wall.height -
            (if wall.framing_config.double_top_plate then (3 : ℚ) else 2) *
            wall.framing_config.lumber_size.actual_dimensions.2) p ∧
        (position_in_opening p
            wall.framing_config.lumber_size.actual_dimensions.1 ros = false ∨
          (p = wall.length -
              wall.framing_config.lumber_size.actual_dimensions.1 ∧
            position_in_opening
              (wall.length -
                wall.framing_config.lumber_size.actual_dimensions.1 / 2)
              wall.framing_config.lumber_size.actual_dimensions.1 ros
              = false)) := by
  obtain ⟨ros2, pos, oms, blocking, hc, hv, hpos, hm, hft, hff, hwid, hmem,
    _, _⟩ := generate_ok_decomp wall a ops l h
  rw [hros] at hc
  obtain rfl : ros = ros2 := Except.ok.inj hc
  intro m hmm htype
  rw [hmem] at hmm
  simp only [List.append_assoc, List.mem_append] at hmm
  rcases hmm with h1 | h1 | h1 | h1
  · rcases (generate_plates_mem wall wall.framing_config wall.direction m
      h1).2.1 with ht | ht | ht <;> rw [htype] at ht <;> exact absurd ht
      (by simp)
  · rcases List.mem_map.mp h1 with ⟨p, hpmem, hp⟩
    refine ⟨p, hp.symm, ?_⟩
    exact stud_positions_spec wall wall.framing_config ros pos hpos p hpmem
  · rcases List.mem_flatten.mp h1 with ⟨om, hom, hmem2⟩
    rcases mapM_option_mem _ ros oms hm om hom with ⟨ro, _, hro⟩
    rcases (generate_opening_framing_mem wall ro wall.framing_config om hro
      m hmem2).2 with ht | ht | ht | ht | ht <;> rw [htype] at ht <;>
      exact absurd ht (by simp)
  · cases hfb : wall.framing_config.fire_blocking_required with
    | false =>
      rw [hff hfb] at h1
      simp at h1
    | true =>
      have ht := (generate_fire_blocking_mem wall wall.framing_config ros
        wall.direction blocking (hft hfb) m h1).2
      rw [htype] at ht
      exact absurd ht (by simp)

/-- C1 witness: the amended exclusion property instantiated on the layout
generated for the concrete wall cW2 with no openings. -/
theorem C1_amended_stud_exclusion_witness :
    ∃ l, generate_wall_framing cW2 ⟨⟩ [] = some (.ok l) ∧
      ∀ m ∈ l.members, m.member_type = .Stud →
        ∃ p, m = mk_stud cW2 cW2.framing_config
            (cW2.base_offset +
              cW2.framing_config.lumber_size.actual_dimensions.2)
            (cW2.height -
              (if cW2.framing_config.double_top_plate then (3 : ℚ) else 2) *
              cW2.framing_config.lumber_size.actual_dimensions.2) p ∧
          (position_in_opening p
              cW2.framing_config.lumber_size.actual_dimensions.1 [] = false ∨
            (p = cW2.length -
                cW2.framing_config.lumber_size.actual_dimensions.1 ∧
              position_in_opening
                (cW2.length -
                  cW2.framing_config.lumber_size.actual_dimensions.1 / 2)
                cW2.framing_config.lumber_size.actual_dimensions.1 []
                = false)) := by
  obtain ⟨l, hl, _, _⟩ := generate_ok_construct cW2 ⟨⟩ [] [] [0] []
    (by rw [cW2_length]; norm_num)
    (by norm_num [show cW2.height = 96 from rfl])
    rfl rfl stud_positions_cW2 rfl rfl
  exact ⟨l, hl, C1_amended_stud_exclusion cW2 ⟨⟩ [] [] l hl rfl⟩

/-- C1 counterexample: on the 100 inch wall cW100 with the door cDoor, the
generator succeeds and places a Stud member (the trailing end stud, at
98.5 inches) whose along wall position lies inside the exclusion zone of
the door rough opening, which spans 55 to 99 inches. -/
theorem C1_counterexample_end_stud :
    compute_rough_opening cDoor cW100 cW100.framing_config = .ok cRo100 ∧
    ∃ l, generate_wall_framing cW100 ⟨⟩ [cDoor] = some (.ok l) ∧
      ∃ m ∈ l.members, m.member_type = .Stud ∧
        ro_left_edge cRo100 -
          2 * cW100.framing_config.lumber_size.actual_dimensions.1
          ≤ m.position.x ∧
        m.position.x ≤ ro_right_edge cRo100 +
          2 * cW100.framing_config.lumber_size.actual_dimensions.1 := by
  refine ⟨compute_ro_cDoor, ?_⟩
  obtain ⟨om, hom⟩ := gof_cW100
  obtain ⟨l, hl, hwid, hmem⟩ := generate_ok_construct cW100 ⟨⟩ [cDoor]
    [cRo100] [0, 16, 32, 48, 98.5] [om]
    (by rw [cW100_length]; norm_num)
    (by norm_num [show cW100.height = 96 from rfl])
    compute_all_cW100 rfl stud_positions_cW100
    (mapM_option_singleton _ _ _ hom) rfl
  refine ⟨l, hl,
    mk_stud cW100 cW100.framing_config
      (cW100.base_offset +
        cW100.framing_config.lumber_size.actual_dimensions.2)
      (cW100.height -
        (if cW100.framing_config.double_top_plate then (3 : ℚ) else 2) *
        cW100.framing_config.lumber_size.actual_dimensions.2)
      98.5, ?_, rfl, ?_, ?_⟩
  · rw [hmem]
    refine List.mem_append.mpr (Or.inl (List.mem_append.mpr (Or.inr ?_)))
    exact List.mem_map.mpr ⟨98.5, by norm_num, rfl⟩
  · rw [mk_stud_position_x, cW100_direction]
    norm_num [ro_left_edge, cRo100, show cW100.start.x = 0 from rfl,
      show cW100.framing_config = WallFramingConfig.default from rfl,
      WallFramingConfig.default, LumberSize.actual_dimensions]
  · rw [mk_stud_position_x, cW100_direction]
    norm_num [ro_right_edge, cRo100, show cW100.start.x = 0 from rfl,
      show cW100.framing_config = WallFramingConfig.default from rfl,
      WallFramingConfig.default, LumberSize.actual_dimensions]

lemma filter_stud_map_mk_stud (wall : Wall) (config : WallFramingConfig)
    (z hgt : ℚ) (pos : List ℚ) :
    ((pos.map (mk_stud wall config z hgt)).filter
      fun m => m.member_type = .Stud) = pos.map (mk_stud wall config z hgt) := by
  apply List.filter_eq_self.mpr
  intro m hm
  rcases List.mem_map.mp hm with ⟨p, _, hp⟩
  rw [← hp]
  simp

lemma filter_plate_map_mk_stud (wall : Wall) (config : WallFramingConfig)
    (z hgt : ℚ) (pos : List ℚ) :
    ((pos.map (mk_stud wall config z hgt)).filter
      fun m => m.member_type = .BottomPlate ∨ m.member_type = .TopPlate ∨
        m.member_type = .DoubleTopPlate) = [] := by
  rw [List.filter_eq_nil_iff]
  intro m hm
  rcases List.mem_map.mp hm with ⟨p, _, hp⟩
  rw [← hp]
  simp

lemma filter_vertical_map_mk_stud (wall : Wall) (config : WallFramingConfig)
    (z hgt : ℚ) (pos : List ℚ) :
    ((pos.map (mk_stud wall config z hgt)).filter
      fun m => m.member_type = .Stud ∨ m.member_type = .KingStud ∨
        m.member_type = .JackStud ∨ m.member_type = .CrippleStud)
      = pos.map (mk_stud wall config z hgt) := by
  apply List.filter_eq_self.mpr
  intro m hm
  rcases List.mem_map.mp hm with ⟨p, _, hp⟩
  rw [← hp]
  simp

lemma filter_stud_plates (wall : Wall) (config : WallFramingConfig)
    (rot : ℚ × ℚ) :
    ((generate_plates wall config rot).filter
      fun m => m.member_type = .Stud) = [] := by
  rw [List.filter_eq_nil_iff]
  intro m hm
  rcases (generate_plates_mem wall config rot m hm).2.1 with ht | ht | ht <;>
    simp [ht]

lemma filter_vertical_plates (wall : Wall) (config : WallFramingConfig)
    (rot : ℚ × ℚ) :
    ((generate_plates wall config rot).filter
      fun m => m.member_type = .Stud ∨ m.member_type = .KingStud ∨
        m.member_type = .JackStud ∨ m.member_type = .CrippleStud) = [] := by
  rw [List.filter_eq_nil_iff]
  intro m hm
  rcases (generate_plates_mem wall config rot m hm).2.1 with ht | ht | ht <;>
    simp [ht]

lemma filter_plate_plates (wall : Wall) (config : WallFramingConfig)
    (rot : ℚ × ℚ) :
    ((generate_plates wall config rot).filter
      fun m => m.member_type = .BottomPlate ∨ m.member_type = .TopPlate ∨
        m.member_type = .DoubleTopPlate) = generate_plates wall config rot := by
  apply List.filter_eq_self.mpr
  intro m hm
  rcases (generate_plates_mem wall config rot m hm).2.1 with ht | ht | ht <;>
    simp [ht]

lemma generate_plates_length_dtp (wall : Wall) (config : WallFramingConfig)
    (rot : ℚ × ℚ) (h : config.double_top_plate = true) :
    (generate_plates wall config rot).length = 3 := by
  unfold generate_plates
  dsimp only
  rw [if_pos h]
  rfl

/-- C2 failing input: the 10 by 12 inch wall cW10 passes the dimension
validation (length at least 1, height at least 12), the generator succeeds,
and the layout contains Stud members of length 12 - 3 * 5.5 = -4.5, which
is not positive. -/
theorem C2_failing_negative_stud_length :
    ¬ cW10.length < 1 ∧ ¬ cW10.height < 12 ∧
    ∃ l, generate_wall_framing cW10 ⟨⟩ [] = some (.ok l) ∧
      ∃ m ∈ l.members, m.member_type = .Stud ∧ m.length = -4.5 ∧
        ¬ (0 < m.length) := by
  refine ⟨by rw [cW10_length]; norm_num,
    by norm_num [show cW10.height = 12 from rfl], ?_⟩
  obtain ⟨l, hl, _, hmem⟩ := generate_ok_construct cW10 ⟨⟩ [] [] [0, 8.5] []
    (by rw [cW10_length]; norm_num)
    (by norm_num [show cW10.height = 12 from rfl])
    rfl rfl stud_positions_cW10 rfl rfl
  have hlen : (cW10.height -
      (if cW10.framing_config.double_top_plate then (3 : ℚ) else 2) *
      cW10.framing_config.lumber_size.actual_dimensions.2) = -4.5 := by
    norm_num [show cW10.height = 12 from rfl,
      show cW10.framing_config = WallFramingConfig.default from rfl,
      WallFramingConfig.default, LumberSize.actual_dimensions]
  refine ⟨l, hl,
    mk_stud cW10 cW10.framing_config
      (cW10.base_offset +
        cW10.framing_config.lumber_size.actual_dimensions.2)
      (cW10.height -
        (if cW10.framing_config.double_top_plate then (3 : ℚ) else 2) *
        cW10.framing_config.lumber_size.actual_dimensions.2)
      0, ?_, rfl, ?_, ?_⟩
  · rw [hmem]
    refine List.mem_append.mpr (Or.inl (List.mem_append.mpr (Or.inr ?_)))
    exact List.mem_map.mpr ⟨0, by norm_num, rfl⟩
  · rw [mk_stud_length, hlen]
  · rw [mk_stud_length, hlen]
    norm_num

/-- C4 counterexample: on the 120 by 96 inch wall with no openings and the
default configuration the generator succeeds with exactly 3 plates but 9
studs (grid studs at 0 through 112 plus the trailing end stud at 118.5),
not a stud count between 6 and 8. -/
theorem C4_counterexample_nine_studs :
    ∃ l, generate_wall_framing cW120 ⟨⟩ [] = some (.ok l) ∧
      (l.members.filter fun m => m.member_type = .BottomPlate ∨
        m.member_type = .TopPlate ∨
        m.member_type = .DoubleTopPlate).length = 3 ∧
      (l.members.filter fun m => m.member_type = .Stud).length = 9 ∧
      l.stud_count = 9 ∧
      ¬ ((l.members.filter fun m => m.member_type = .Stud).length ≤ 8) := by
  obtain ⟨l, hl, _, hmem⟩ := generate_ok_construct cW120 ⟨⟩ [] []
    [0, 16, 32, 48, 64, 80, 96, 112, 118.5] []
    (by rw [cW120_length]; norm_num)
    (by norm_num [show cW120.height = 96 from rfl])
    rfl rfl stud_positions_cW120 rfl rfl
  have hsc : l.stud_count = (l.members.filter fun m =>
      m.member_type = .Stud ∨ m.member_type = .KingStud ∨
      m.member_type = .JackStud ∨ m.member_type = .CrippleStud).length := by
    obtain ⟨_, _, _, _, _, _, _, _, _, _, _, _, _, hsc⟩ :=
      generate_ok_decomp cW120 ⟨⟩ [] l hl
    exact hsc
  refine ⟨l, hl, ?_, ?_, ?_, ?_⟩
  · rw [hmem]
    simp only [List.flatten_nil, List.append_nil, List.filter_append,
      List.length_append, filter_plate_plates, filter_plate_map_mk_stud]
    rw [generate_plates_length_dtp _ _ _ rfl]
  · rw [hmem]
    simp only [List.flatten_nil, List.append_nil, List.filter_append,
      List.length_append, filter_stud_plates, filter_stud_map_mk_stud]
    rfl
  · rw [hsc, hmem]
    simp only [List.flatten_nil, List.append_nil, List.filter_append,
      List.length_append, filter_vertical_plates, filter_vertical_map_mk_stud]
    rfl
  · rw [hmem]
    simp only [List.flatten_nil, List.append_nil, List.filter_append,
      List.length_append, filter_stud_plates, filter_stud_map_mk_stud]
    norm_num

/-- C4 amended: the 120 by 96 inch wall with no openings and the default
configuration yields exactly 3 plate members and exactly 9 studs. -/
theorem C4_amended_plate_and_stud_count :
    ∃ l, generate_wall_framing cW120 ⟨⟩ [] = some (.ok l) ∧
      (l.members.filter fun m => m.member_type = .BottomPlate ∨
        m.member_type = .TopPlate ∨
        m.member_type = .DoubleTopPlate).length = 3 ∧
      (l.members.filter fun m => m.member_type = .Stud).length = 9 ∧
      l.stud_count = 9 := by
  obtain ⟨l, hl, _, hmem⟩ := generate_ok_construct cW120 ⟨⟩ [] []
    [0, 16, 32, 48, 64, 80, 96, 112, 118.5] []
    (by rw [cW120_length]; norm_num)
    (by norm_num [show cW120.height = 96 from rfl])
    rfl rfl stud_positions_cW120 rfl rfl
  have hsc : l.stud_count = (l.members.filter fun m =>
      m.member_type = .Stud ∨ m.member_type = .KingStud ∨
      m.member_type = .JackStud ∨ m.member_type = .CrippleStud).length := by
    obtain ⟨_, _, _, _, _, _, _, _, _, _, _, _, _, hsc⟩ :=
      generate_ok_decomp cW120 ⟨⟩ [] l hl
    exact hsc
  refine ⟨l, hl, ?_, ?_, ?_⟩
  · rw [hmem]
    simp only [List.flatten_nil, List.append_nil, List.filter_append,
      List.length_append, filter_plate_plates, filter_plate_map_mk_stud]
    rw [generate_plates_length_dtp _ _ _ rfl]
  · rw [hmem]
    simp only [List.flatten_nil, List.append_nil, List.filter_append,
      List.length_append, filter_stud_plates, filter_stud_map_mk_stud]
    rfl
  · rw [hsc, hmem]
    simp only [List.flatten_nil, List.append_nil, List.filter_append,
      List.length_append, filter_vertical_plates, filter_vertical_map_mk_stud]
    rfl

lemma cro_spec_aux (oid : OpeningId) (pos exw exh L H : ℚ)
    (jc : Nat) (hd : ℚ) (ht : HeaderType) (sill : Bool)
    (res : Except FramingError RoughOpening)
    (hres : res =
      if pos - exw / 2 < 0 ∨ pos + exw / 2 > L then
        .error (.OpeningOutOfBounds oid)
      else if exh > H then .error (.OpeningTooLarge oid)
      else .ok ⟨oid, exw, exh, pos, jc, hd, ht, sill⟩) :
    ((∃ ro, res = .ok ro) ↔
      (0 ≤ pos - exw / 2 ∧ pos + exw / 2 ≤ L ∧ exh ≤ H)) ∧
    (∀ ro, res = .ok ro → ro = ⟨oid, exw, exh, pos, jc, hd, ht, sill⟩) ∧
    (∀ e, res = .error e →
      (e = .OpeningOutOfBounds oid ∧
        (pos - exw / 2 < 0 ∨ pos + exw / 2 > L)) ∨
      (e = .OpeningTooLarge oid ∧ exh > H)) := by
  subst hres
  by_cases hb : pos - exw / 2 < 0 ∨ pos + exw / 2 > L
  · rw [if_pos hb]
    refine ⟨?_, ?_, ?_⟩
    · constructor
      · rintro ⟨ro, hro⟩
        exact absurd hro (by simp)
      · rintro ⟨hc1, hc2, _⟩
        rcases hb with hb | hb
        · exact absurd hc1 (by push_neg; linarith)
        · exact absurd hc2 (by push_neg; linarith)
    · intro ro hro
      exact absurd hro (by simp)
    · intro e he
      exact Or.inl ⟨(Except.error.inj he).symm, hb⟩
  · rw [if_neg hb]
    push_neg at hb
    by_cases hh : exh > H
    · rw [if_pos hh]
      refine ⟨?_, ?_, ?_⟩
      · constructor
        · rintro ⟨ro, hro⟩
          exact absurd hro (by simp)
        · rintro ⟨_, _, hc3⟩
          exact absurd hc3 (by push_neg; linarith)
      · intro ro hro
        exact absurd hro (by simp)
      · intro e he
        exact Or.inr ⟨(Except.error.inj he).symm, hh⟩
    · rw [if_neg hh]
      push_neg at hh
      refine ⟨?_, ?_, ?_⟩
      · constructor
        · rintro ⟨ro, _⟩
          exact ⟨by linarith [hb.1], hb.2, hh⟩
        · rintro _
          exact ⟨_, rfl⟩
      · intro ro hro
        exact (Except.ok.inj hro).symm
      · intro e he
        exact absurd he (by simp)

/-- C5: compute_rough_opening succeeds exactly when the tolerance expanded
opening (width +1.0 for windows, +2.0 for doors and other, height +0.5)
lies inside the wall, and on success the rough opening carries the
expanded sizes, the absolute position, the sill flag, the jack stud rule
and the fixed 7.25 inch header depth; on failure the error is
OpeningOutOfBounds for a horizontal violation, checked first, or
OpeningTooLarge for an excessive height, both carrying the opening id. -/
theorem C5_rough_opening_spec (o : Opening) (w : Wall)
    (c : WallFramingConfig) :
    ((∃ ro, compute_rough_opening o w c = .ok ro) ↔
      (0 ≤ o.position_along_wall * w.length -
          (if o.opening_type = .Window then o.width + 1.0 else o.width + 2.0)
            / 2 ∧
        o.position_along_wall * w.length +
          (if o.opening_type = .Window then o.width + 1.0 else o.width + 2.0)
            / 2 ≤ w.length ∧
        o.height + 0.5 ≤ w.height)) ∧
    (∀ ro, compute_rough_opening o w c = .ok ro →
      ro.opening_id = o.id ∧
      ro.position_along_wall = o.position_along_wall * w.length ∧
      ro.height = o.height + 0.5 ∧
      ro.header_depth = 7.25 ∧
      ro.width = (if o.opening_type = .Window then o.width + 1.0
        else o.width + 2.0) ∧
      ro.requires_sill = (if o.opening_type = .Window then true
        else false) ∧
      ro.jack_stud_count = (if ro.width > 48 then 2 else 1)) ∧
    (∀ e, compute_rough_opening o w c = .error e →
      (e = .OpeningOutOfBounds o.id ∧
        (o.position_along_wall * w.length -
            (if o.opening_type = .Window then o.width + 1.0
              else o.width + 2.0) / 2 < 0 ∨
          o.position_along_wall * w.length +
            (if o.opening_type = .Window then o.width + 1.0
              else o.width + 2.0) / 2 > w.length)) ∨
      (e = .OpeningTooLarge o.id ∧ o.height + 0.5 > w.height)) := by
  cases hot : o.opening_type with
  | Window =>
    have haux := cro_spec_aux o.id (o.position_along_wall * w.length)
      (o.width + 1.0) (o.height + 0.5) w.length w.height
      (if o.width + 1.0 > 48 then 2 else 1) 7.25
      (HeaderType.for_span (o.width + 1.0) c.is_load_bearing) true
      (compute_rough_opening o w c)
      (by unfold compute_rough_opening
          rw [hot]
          rfl)
    rw [if_pos rfl]
    refine ⟨haux.1, ?_, haux.2.2⟩
    intro ro hro
    rw [haux.2.1 ro hro]
    simp
  | Door =>
    have haux := cro_spec_aux o.id (o.position_along_wall * w.length)
      (o.width + 2.0) (o.height + 0.5) w.length w.height
      (if o.width + 2.0 > 48 then 2 else 1) 7.25
      (HeaderType.for_span (o.width + 2.0) c.is_load_bearing) false
      (compute_rough_opening o w c)
      (by unfold compute_rough_opening
          rw [hot]
          rfl)
    rw [if_neg (by simp)]
    refine ⟨haux.1, ?_, haux.2.2⟩
    intro ro hro
    rw [haux.2.1 ro hro]
    simp
  | Other s =>
    have haux := cro_spec_aux o.id (o.position_along_wall * w.length)
      (o.width + 2.0) (o.height + 0.5) w.length w.height
      (if o.width + 2.0 > 48 then 2 else 1) 7.25
      (HeaderType.for_span (o.width + 2.0) c.is_load_bearing) false
      (compute_rough_opening o w c)
      (by unfold compute_rough_opening
          rw [hot]
          rfl)
    rw [if_neg (by simp)]
    refine ⟨haux.1, ?_, haux.2.2⟩
    intro ro hro
    rw [haux.2.1 ro hro]
    simp

/-- C5 witness: the rough opening computation applied to the 36 by 48
window centered on the 144 inch wall. -/
theorem C5_rough_opening_spec_witness :
    compute_rough_opening cWin144 cW144 WallFramingConfig.default
      = .ok cRoW144 ∧
    cRoW144.position_along_wall
      = cWin144.position_along_wall * cW144.length ∧
    cRoW144.height = cWin144.height + 0.5 ∧
    cRoW144.header_depth = 7.25 := by
  have h := (C5_rough_opening_spec cWin144 cW144
    WallFramingConfig.default).2.1 cRoW144 compute_ro_cWin144
  exact ⟨compute_ro_cWin144, h.2.1, h.2.2.1, h.2.2.2.1⟩

/-- C7: with valid wall dimensions and successfully computed rough
openings, the generator reports OverlappingOpenings exactly when two rough
openings sit closer than a 3.5 inch edge to edge gap, and any such error
names the two offending opening ids. -/
theorem C7_overlapping_openings (wall : Wall) (a : WallAssembly)
    (ops : List Opening) (ros : List RoughOpening)
    (h1 : ¬ wall.length < 1) (h2 : ¬ wall.height < 12)
    (hc : compute_all_rough_openings wall ops wall.framing_config
      = .ok ros) :
    ((¬ ros.Pairwise fun r1 r2 => ¬ ro_gap r1 r2 < 3.5) ↔
      ∃ ids, generate_wall_framing wall a ops
        = some (.error (.OverlappingOpenings ids))) ∧
    (∀ ids, generate_wall_framing wall a ops
        = some (.error (.OverlappingOpenings ids)) →
      ∃ r1 ∈ ros, ∃ r2 ∈ ros,
        ids = [r1.opening_id, r2.opening_id] ∧ ro_gap r1 r2 < 3.5) := by
  obtain ⟨hforward, hafter⟩ := generate_after_validate wall a ops ros h1 h2 hc
  have hconv : (ros.Pairwise fun r1 r2 => ¬ too_close r1 r2) ↔
      ros.Pairwise fun r1 r2 => ¬ ro_gap r1 r2 < 3.5 := by
    constructor
    · exact fun hp => hp.imp fun h => by
        rw [← too_close_iff_gap]; exact h
    · exact fun hp => hp.imp fun h => by
        rw [too_close_iff_gap]; exact h
  constructor
  · constructor
    · intro hnp
      rcases validate_no_overlap_cases ros with hok | ⟨e, he⟩
      · exact absurd (hconv.mp ((validate_no_overlap_ok_iff ros).mp hok)) hnp
      · rcases validate_no_overlap_error ros e he with
          ⟨r1, hm1, r2, hm2, heq, hcl⟩
        subst heq
        exact ⟨_, hforward _ he⟩
    · rintro ⟨ids, hge⟩ hp
      have hok : validate_openings_no_overlap ros = .ok () :=
        (validate_no_overlap_ok_iff ros).mpr (hconv.mpr hp)
      rcases hafter hok with hnone | ⟨l, hsome⟩
      · rw [hge] at hnone
        exact absurd hnone (by simp)
      · rw [hge] at hsome
        exact absurd (Option.some.inj hsome) (by simp)
  · intro ids hge
    rcases validate_no_overlap_cases ros with hok | ⟨e, he⟩
    · exfalso
      rcases hafter hok with hnone | ⟨l, hsome⟩
      · rw [hge] at hnone
        exact absurd hnone (by simp)
      · rw [hge] at hsome
        exact absurd (Option.some.inj hsome) (by simp)
    · have hgen := hforward e he
      rw [hge] at hgen
      replace hgen := Option.some.inj hgen
      rcases validate_no_overlap_error ros e he with
        ⟨r1, hm1, r2, hm2, heq, hcl⟩
      subst heq
      replace hgen := Except.error.inj hgen
      refine ⟨r1, hm1, r2, hm2, ?_, (too_close_iff_gap r1 r2).mp hcl⟩
      cases hgen
      rfl

/-- C7 witness: the two 36 inch windows with centers 10 inches apart on the
240 inch wall always produce the OverlappingOpenings error. -/
theorem C7_overlapping_openings_witness :
    ∃ ids, generate_wall_framing cW240 ⟨⟩ [cWinA, cWinB]
      = some (.error (.OverlappingOpenings ids)) := by
  have h := C7_overlapping_openings cW240 ⟨⟩ [cWinA, cWinB] [cRoA, cRoB]
    (by rw [cW240_length]; norm_num)
    (by norm_num [show cW240.height = 96 from rfl])
    compute_all_cW240
  apply h.1.mp
  intro hp
  have hpair := (List.pairwise_cons.mp hp).1 cRoB (by simp)
  apply hpair
  show max _ _ < _
  rw [max_lt_iff]
  constructor <;>
    norm_num [ro_left_edge, ro_right_edge, cRoA, cRoB]
